import Mathlib

/-!
Verification development for the live-backend classroom server.

The embedding models the two stateful components of the repository:
`app/ai_processor.py` (the per-student attention alert state machine) and
`app/websocket_manager.py` together with the teacher endpoint logic of
`app/main.py` (room and connection management).

Modelling conventions:
  - Python dicts are association lists `List (κ × α)`; insertion keeps the
    position of an existing key and appends new keys at the end, matching
    the insertion-order semantics of Python dicts.
  - WebSocket handles are opaque naturals (`WS`).
  - Wall-clock readings (`time.time()`, `datetime.now()`) are abstract `Nat`
    parameters threaded by the caller; ISO timestamp strings inside message
    payloads are omitted since no logic reads them.
  - The float constants `1.0` and `0.0` (confidence values) are modelled as
    rationals; they are only stored and compared, never computed with.
  - Network sends are modelled with a failure oracle `fails : WS → Bool`;
    a send to a failing socket raises (is recorded as `Ev.send_failed` where
    the source catches the exception, or aborts the operation where it does
    not).  Code paths that would raise an uncaught `KeyError` are modelled
    with `Except Unit` / `Option` results.
-/

namespace LiveBackend

section PyDict

variable {κ : Type} {α : Type} [DecidableEq κ]

/-- Lookup in a Python dict modelled as an association list (`d.get(k)` /
`d[k]`). -/
def dictGet : List (κ × α) → κ → Option α
  | [], _ => none
  | (k, v) :: d, x => if x = k then some v else dictGet d x

/-- Python dict assignment `d[k] = v`: replaces the value in place if the key
is present, appends at the end otherwise. -/
def dictSet : List (κ × α) → κ → α → List (κ × α)
  | [], k, v => [(k, v)]
  | (k0, v0) :: d, k, v => if k0 = k then (k, v) :: d else (k0, v0) :: dictSet d k v

/-- Python dict deletion `del d[k]` (removes every binding of the key, which
on dicts built by `dictSet` is the unique one). -/
def dictErase : List (κ × α) → κ → List (κ × α)
  | [], _ => []
  | (k0, v0) :: d, k => if k0 = k then dictErase d k else (k0, v0) :: dictErase d k

/-- Python membership test `k in d`. -/
def dictContains (d : List (κ × α)) (k : κ) : Bool :=
  (dictGet d k).isSome

/-- Python `list(d.values())`. -/
def dictValues (d : List (κ × α)) : List α :=
  d.map Prod.snd

theorem dictGet_set (d : List (κ × α)) (k : κ) (v : α) (x : κ) :
    dictGet (dictSet d k v) x = if x = k then some v else dictGet d x := by
  induction d with
  | nil => simp [dictGet, dictSet]
  | cons p d ih =>
    obtain ⟨k0, v0⟩ := p
    by_cases h0 : k0 = k
    · subst h0
      by_cases hx : x = k0 <;> simp [dictSet, dictGet, hx]
    · by_cases hx : x = k0
      · subst hx
        have hxk : ¬ x = k := fun hh => h0 hh
        simp [dictSet, dictGet, h0, hxk]
      · simp [dictSet, dictGet, h0, hx, ih]

theorem dictGet_set_self (d : List (κ × α)) (k : κ) (v : α) :
    dictGet (dictSet d k v) k = some v := by
  simp [dictGet_set]

theorem dictGet_set_ne (d : List (κ × α)) (k : κ) (v : α) (x : κ) (h : x ≠ k) :
    dictGet (dictSet d k v) x = dictGet d x := by
  simp [dictGet_set, h]

theorem dictGet_erase (d : List (κ × α)) (k x : κ) :
    dictGet (dictErase d k) x = if x = k then none else dictGet d x := by
  induction d with
  | nil => simp [dictGet, dictErase]
  | cons p d ih =>
    obtain ⟨k0, v0⟩ := p
    by_cases h0 : k0 = k
    · subst h0
      by_cases hx : x = k0
      · subst hx
        simp [dictErase, dictGet, ih]
      · simp [dictErase, dictGet, ih, hx]
    · by_cases hx : x = k0
      · subst hx
        have hxk : ¬ x = k := fun hh => h0 hh
        simp [dictErase, dictGet, h0, hxk]
      · simp [dictErase, dictGet, h0, hx, ih]

theorem dictSet_set (d : List (κ × α)) (k : κ) (v w : α) :
    dictSet (dictSet d k v) k w = dictSet d k w := by
  induction d with
  | nil => simp [dictSet]
  | cons p d ih =>
    obtain ⟨k0, v0⟩ := p
    by_cases h0 : k0 = k
    · subst h0
      simp [dictSet]
    · simp [dictSet, h0, ih]

theorem dictSet_eq_self (d : List (κ × α)) (k : κ) (v : α)
    (h : dictGet d k = some v) : dictSet d k v = d := by
  induction d with
  | nil => simp [dictGet] at h
  | cons p d ih =>
    obtain ⟨k0, v0⟩ := p
    by_cases h0 : k = k0
    · subst h0
      simp [dictGet] at h
      simp [dictSet, h]
    · have h0b : ¬ k0 = k := fun hh => h0 hh.symm
      simp only [dictGet, if_neg h0] at h
      simp [dictSet, h0b, ih h]

theorem dictErase_eq_self (d : List (κ × α)) (k : κ)
    (h : dictGet d k = none) : dictErase d k = d := by
  induction d with
  | nil => simp [dictErase]
  | cons p d ih =>
    obtain ⟨k0, v0⟩ := p
    by_cases h0 : k = k0
    · subst h0
      simp [dictGet] at h
    · have h0b : ¬ k0 = k := fun hh => h0 hh.symm
      simp only [dictGet, if_neg h0] at h
      simp [dictErase, h0b, ih h]

theorem dictErase_set_of_absent (d : List (κ × α)) (k : κ) (v : α)
    (h : dictGet d k = none) : dictErase (dictSet d k v) k = d := by
  induction d with
  | nil => simp [dictSet, dictErase]
  | cons p d ih =>
    obtain ⟨k0, v0⟩ := p
    by_cases h0 : k = k0
    · subst h0
      simp [dictGet] at h
    · have h0b : ¬ k0 = k := fun hh => h0 hh.symm
      simp only [dictGet, if_neg h0] at h
      simp [dictSet, dictErase, h0b, ih h]

end PyDict

/-! ## `app/ai_processor.py`: the `AttentionAnalyzer` -/

/-- Per-student tracked state, the value type of
`AttentionAnalyzer.student_states`. -/
structure StudentState where
  current_status : String
  alert_active : Bool
  last_update : Nat
deriving DecidableEq

/-- The `student_states` dict of the analyzer. -/
abbrev AnalyzerState := List (String × StudentState)

/-- The two result shapes `generate_alert` can return (an alert dict with
`alert_type`, `student_id`, `message`, `severity`, `timestamp`; or the
clear-alert dict with `alert_type = "clear_alert"` and `student_id`). -/
inductive AlertEvent where
  | alert (alert_type student_id message severity : String) (timestamp : Nat)
  | clear_alert (student_id : String)
deriving DecidableEq

/-- `AttentionAnalyzer.reset_student_tracking`. -/
def reset_student_tracking (states : AnalyzerState) (student_id : String) : AnalyzerState :=
  if dictContains states student_id then dictErase states student_id else states

/-- `AttentionAnalyzer.analyze_attention`.  Returns the new `student_states`
together with the `(status, confidence, analysis)` triple of the source; the
`1.0` float is the rational `1`. -/
def analyze_attention (states : AnalyzerState) (student_id : String)
    (landmark_data : List (String × String)) (now : Nat) :
    AnalyzerState × String × ℚ × List (String × String) :=
  let states1 :=
    if dictContains states student_id then states
    else dictSet states student_id ⟨"attentive", false, now⟩
  let status := (dictGet landmark_data "status").getD "attentive"
  let st := (dictGet states1 student_id).getD ⟨"attentive", false, now⟩
  let states2 := dictSet states1 student_id
    { st with current_status := status, last_update := now }
  (states2, status, 1, [("status", status)])

/-- The message half of the `if/elif` chain at lines 65-76 of
`ai_processor.py`. -/
def alert_message (student_name status : String) : String :=
  if status = "looking_away" then "⚠️ " ++ student_name ++ " is looking away"
  else if status = "drowsy" then "😴 " ++ student_name ++ " appears drowsy"
  else if status = "no_face" then "❌ " ++ student_name ++ " - no face detected"
  else "⚠️ " ++ student_name ++ " needs attention"

/-- The severity half of the `if/elif` chain at lines 65-76 of
`ai_processor.py`. -/
def alert_severity (status : String) : String :=
  if status = "looking_away" then "medium"
  else if status = "drowsy" then "high"
  else if status = "no_face" then "medium"
  else "medium"

/-- `AttentionAnalyzer.generate_alert`.  The `analysis` argument is accepted
and ignored exactly as in the source. -/
def generate_alert (states : AnalyzerState) (student_id student_name status : String)
    (_analysis : List (String × String)) (now : Nat) :
    AnalyzerState × Option AlertEvent :=
  match dictGet states student_id with
  | none => (states, none)
  | some st =>
    if status ≠ "attentive" ∧ st.alert_active = false then
      (dictSet states student_id { st with alert_active := true },
       some (.alert status student_id (alert_message student_name status)
         (alert_severity status) now))
    else if status = "attentive" ∧ st.alert_active = true then
      (dictSet states student_id { st with alert_active := false },
       some (.clear_alert student_id))
    else
      (states, none)

/-- One inbound `attention_update` report as handled by the student endpoint
in `app/main.py`: `analyze_attention` followed by `generate_alert` on the
analyzed status (the manager update in between does not touch analyzer
state). -/
def process_report (states : AnalyzerState) (student_id student_name : String)
    (landmark_data : List (String × String)) (now : Nat) :
    AnalyzerState × Option AlertEvent :=
  let r := analyze_attention states student_id landmark_data now
  generate_alert r.1 student_id student_name r.2.1 r.2.2.2 now

/-- A sequence of status reports for one student, each fed through
`process_report` with landmark data `{"status": s}`; `clock i` is the wall
clock at the i-th report. -/
def run_reports (states : AnalyzerState) (student_id student_name : String)
    (clock : Nat → Nat) : Nat → List String → AnalyzerState × List (Option AlertEvent)
  | _, [] => (states, [])
  | i, s :: rest =>
    let r := process_report states student_id student_name [("status", s)] (clock i)
    let r2 := run_reports r.1 student_id student_name clock (i + 1) rest
    (r2.1, r.2 :: r2.2)

/-! ### Step lemmas for the analyzer -/

theorem analyze_attention_tracked (states : AnalyzerState) (sid : String)
    (st : StudentState) (data : List (String × String)) (t : Nat)
    (h : dictGet states sid = some st) :
    analyze_attention states sid data t =
      (dictSet states sid ⟨(dictGet data "status").getD "attentive", st.alert_active, t⟩,
       (dictGet data "status").getD "attentive", 1,
       [("status", (dictGet data "status").getD "attentive")]) := by
  obtain ⟨cs, aa, lu⟩ := st
  simp [analyze_attention, dictContains, h]

theorem analyze_attention_untracked (states : AnalyzerState) (sid : String)
    (data : List (String × String)) (t : Nat)
    (h : dictGet states sid = none) :
    analyze_attention states sid data t =
      (dictSet states sid ⟨(dictGet data "status").getD "attentive", false, t⟩,
       (dictGet data "status").getD "attentive", 1,
       [("status", (dictGet data "status").getD "attentive")]) := by
  simp [analyze_attention, dictContains, h, dictGet_set_self, dictSet_set]

theorem generate_alert_fire (states : AnalyzerState) (sid name s : String)
    (st : StudentState) (a : List (String × String)) (t : Nat)
    (h : dictGet states sid = some st) (ha : st.alert_active = false)
    (hs : s ≠ "attentive") :
    generate_alert states sid name s a t =
      (dictSet states sid ⟨st.current_status, true, st.last_update⟩,
       some (.alert s sid (alert_message name s) (alert_severity s) t)) := by
  obtain ⟨cs, aa, lu⟩ := st
  subst ha
  simp [generate_alert, h, hs]

theorem generate_alert_skip_active (states : AnalyzerState) (sid name s : String)
    (st : StudentState) (a : List (String × String)) (t : Nat)
    (h : dictGet states sid = some st) (ha : st.alert_active = true)
    (hs : s ≠ "attentive") :
    generate_alert states sid name s a t = (states, none) := by
  simp [generate_alert, h, hs, ha]

theorem generate_alert_clear (states : AnalyzerState) (sid name : String)
    (st : StudentState) (a : List (String × String)) (t : Nat)
    (h : dictGet states sid = some st) (ha : st.alert_active = true) :
    generate_alert states sid name "attentive" a t =
      (dictSet states sid ⟨st.current_status, false, st.last_update⟩,
       some (.clear_alert sid)) := by
  obtain ⟨cs, aa, lu⟩ := st
  subst ha
  simp [generate_alert, h]

theorem generate_alert_skip_idle (states : AnalyzerState) (sid name : String)
    (st : StudentState) (a : List (String × String)) (t : Nat)
    (h : dictGet states sid = some st) (ha : st.alert_active = false) :
    generate_alert states sid name "attentive" a t = (states, none) := by
  simp [generate_alert, h, ha]

theorem generate_alert_untracked (states : AnalyzerState) (sid name s : String)
    (a : List (String × String)) (t : Nat)
    (h : dictGet states sid = none) :
    generate_alert states sid name s a t = (states, none) := by
  simp [generate_alert, h]

theorem dictGet_status_pair (s : String) :
    dictGet [("status", s)] "status" = some s := by
  simp [dictGet]

theorem process_report_fire (states : AnalyzerState) (sid name s : String)
    (st : StudentState) (t : Nat)
    (h : dictGet states sid = some st) (ha : st.alert_active = false)
    (hs : s ≠ "attentive") :
    process_report states sid name [("status", s)] t =
      (dictSet states sid ⟨s, true, t⟩,
       some (.alert s sid (alert_message name s) (alert_severity s) t)) := by
  simp only [process_report, analyze_attention_tracked states sid st _ t h,
    dictGet_status_pair, Option.getD_some]
  rw [ha, generate_alert_fire _ _ _ _ _ _ _ (dictGet_set_self _ _ _) rfl hs]
  simp [dictSet_set]

theorem process_report_skip_active (states : AnalyzerState) (sid name s : String)
    (st : StudentState) (t : Nat)
    (h : dictGet states sid = some st) (ha : st.alert_active = true)
    (hs : s ≠ "attentive") :
    process_report states sid name [("status", s)] t =
      (dictSet states sid ⟨s, true, t⟩, none) := by
  simp only [process_report, analyze_attention_tracked states sid st _ t h,
    dictGet_status_pair, Option.getD_some]
  rw [ha, generate_alert_skip_active _ _ _ _ _ _ _ (dictGet_set_self _ _ _) rfl hs]

theorem process_report_clear (states : AnalyzerState) (sid name : String)
    (st : StudentState) (t : Nat)
    (h : dictGet states sid = some st) (ha : st.alert_active = true) :
    process_report states sid name [("status", "attentive")] t =
      (dictSet states sid ⟨"attentive", false, t⟩, some (.clear_alert sid)) := by
  simp only [process_report, analyze_attention_tracked states sid st _ t h,
    dictGet_status_pair, Option.getD_some]
  rw [ha, generate_alert_clear _ _ _ _ _ _ (dictGet_set_self _ _ _) rfl]
  simp [dictSet_set]

theorem process_report_skip_idle (states : AnalyzerState) (sid name : String)
    (st : StudentState) (t : Nat)
    (h : dictGet states sid = some st) (ha : st.alert_active = false) :
    process_report states sid name [("status", "attentive")] t =
      (dictSet states sid ⟨"attentive", false, t⟩, none) := by
  simp only [process_report, analyze_attention_tracked states sid st _ t h,
    dictGet_status_pair, Option.getD_some]
  rw [ha, generate_alert_skip_idle _ _ _ _ _ _ (dictGet_set_self _ _ _) rfl]

theorem process_report_untracked_fire (states : AnalyzerState) (sid name s : String)
    (t : Nat) (h : dictGet states sid = none) (hs : s ≠ "attentive") :
    process_report states sid name [("status", s)] t =
      (dictSet states sid ⟨s, true, t⟩,
       some (.alert s sid (alert_message name s) (alert_severity s) t)) := by
  simp only [process_report, analyze_attention_untracked states sid _ t h,
    dictGet_status_pair, Option.getD_some]
  rw [generate_alert_fire _ _ _ _ _ _ _ (dictGet_set_self _ _ _) rfl hs]
  simp [dictSet_set]

theorem process_report_untracked_attentive (states : AnalyzerState) (sid name : String)
    (t : Nat) (h : dictGet states sid = none) :
    process_report states sid name [("status", "attentive")] t =
      (dictSet states sid ⟨"attentive", false, t⟩, none) := by
  simp only [process_report, analyze_attention_untracked states sid _ t h,
    dictGet_status_pair, Option.getD_some]
  rw [generate_alert_skip_idle _ _ _ _ _ _ (dictGet_set_self _ _ _) rfl]

theorem dictGet_reset_self (states : AnalyzerState) (sid : String) :
    dictGet (reset_student_tracking states sid) sid = none := by
  unfold reset_student_tracking
  cases hg : dictGet states sid with
  | none => simp [dictContains, hg]
  | some v => simp [dictContains, hg, dictGet_erase]

/-! ### Claim theorems about the analyzer -/

/-- Claim C1: the per-student alert state machine is strictly edge-triggered.
For a freshly tracked student, the report sequence `attentive, looking_away,
looking_away, attentive` makes `generate_alert` return exactly two non-None
results, an alert followed by a clear-alert; `looking_away, looking_away,
looking_away` returns exactly one non-None result (one alert); and in
general a non-attentive report while `alert_active` is true, or an attentive
report while it is false, returns None and leaves the flag unchanged. -/
theorem alert_state_machine_edge_triggered (states : AnalyzerState)
    (sid name : String) (clock : Nat → Nat)
    (h : dictGet states sid = none) :
    ((run_reports states sid name clock 0
        ["attentive", "looking_away", "looking_away", "attentive"]).2 =
      [none,
       some (.alert "looking_away" sid (alert_message name "looking_away")
         "medium" (clock 1)),
       none,
       some (.clear_alert sid)])
    ∧ ((run_reports states sid name clock 0
        ["looking_away", "looking_away", "looking_away"]).2 =
      [some (.alert "looking_away" sid (alert_message name "looking_away")
         "medium" (clock 0)),
       none, none])
    ∧ (∀ (states2 : AnalyzerState) (st : StudentState) (s : String) (t : Nat),
        dictGet states2 sid = some st → st.alert_active = true → s ≠ "attentive" →
        (process_report states2 sid name [("status", s)] t).2 = none ∧
        dictGet (process_report states2 sid name [("status", s)] t).1 sid =
          some ⟨s, true, t⟩)
    ∧ (∀ (states2 : AnalyzerState) (st : StudentState) (t : Nat),
        dictGet states2 sid = some st → st.alert_active = false →
        (process_report states2 sid name [("status", "attentive")] t).2 = none ∧
        dictGet (process_report states2 sid name [("status", "attentive")] t).1 sid =
          some ⟨"attentive", false, t⟩) := by
  have hla : ("looking_away" : String) ≠ "attentive" := by decide
  refine ⟨?_, ?_, ?_, ?_⟩
  · have h0 := process_report_untracked_attentive states sid name (clock 0) h
    have h1 := process_report_fire (dictSet states sid ⟨"attentive", false, clock 0⟩)
      sid name "looking_away" ⟨"attentive", false, clock 0⟩ (clock 1)
      (dictGet_set_self _ _ _) rfl hla
    rw [dictSet_set] at h1
    have h2 := process_report_skip_active (dictSet states sid ⟨"looking_away", true, clock 1⟩)
      sid name "looking_away" ⟨"looking_away", true, clock 1⟩ (clock 2)
      (dictGet_set_self _ _ _) rfl hla
    rw [dictSet_set] at h2
    have h3 := process_report_clear (dictSet states sid ⟨"looking_away", true, clock 2⟩)
      sid name ⟨"looking_away", true, clock 2⟩ (clock 3)
      (dictGet_set_self _ _ _) rfl
    simp only [run_reports, Nat.reduceAdd, Nat.zero_add, h0, h1, h2, h3]
    simp [alert_severity]
  · have h0 := process_report_untracked_fire states sid name "looking_away" (clock 0) h hla
    have h1 := process_report_skip_active (dictSet states sid ⟨"looking_away", true, clock 0⟩)
      sid name "looking_away" ⟨"looking_away", true, clock 0⟩ (clock 1)
      (dictGet_set_self _ _ _) rfl hla
    rw [dictSet_set] at h1
    have h2 := process_report_skip_active (dictSet states sid ⟨"looking_away", true, clock 1⟩)
      sid name "looking_away" ⟨"looking_away", true, clock 1⟩ (clock 2)
      (dictGet_set_self _ _ _) rfl hla
    simp only [run_reports, Nat.reduceAdd, Nat.zero_add, h0, h1, h2]
    simp [alert_severity]
  · intro states2 st s t h2 ha hs
    rw [process_report_skip_active states2 sid name s st t h2 ha hs]
    exact ⟨rfl, dictGet_set_self _ _ _⟩
  · intro states2 st t h2 ha
    rw [process_report_skip_idle states2 sid name st t h2 ha]
    exact ⟨rfl, dictGet_set_self _ _ _⟩

/-- Witness for C1 at a concrete student and clock. -/
theorem alert_state_machine_edge_triggered_witness :
    (run_reports [] "s1" "Alice" (fun i => i) 0
        ["attentive", "looking_away", "looking_away", "attentive"]).2 =
      [none,
       some (.alert "looking_away" "s1" (alert_message "Alice" "looking_away") "medium" 1),
       none,
       some (.clear_alert "s1")] :=
  (alert_state_machine_edge_triggered [] "s1" "Alice" (fun i => i) rfl).1

/-- Claim C8: when an alert fires on a false-to-true `alert_active`
transition, severity depends only on the status: `looking_away` is medium,
`drowsy` high, `no_face` medium, and any other (unrecognized) non-attentive
status yields medium with the generic message; the emitted alert keeps the
reported status as its `alert_type`, never coercing it to attentive. -/
theorem alert_severity_determined_by_status (states : AnalyzerState)
    (sid name status : String) (st : StudentState)
    (a : List (String × String)) (t : Nat)
    (h : dictGet states sid = some st) (ha : st.alert_active = false)
    (hs : status ≠ "attentive") :
    (generate_alert states sid name status a t).2 =
      some (.alert status sid (alert_message name status) (alert_severity status) t)
    ∧ alert_severity "looking_away" = "medium"
    ∧ alert_severity "drowsy" = "high"
    ∧ alert_severity "no_face" = "medium"
    ∧ (status ≠ "looking_away" → status ≠ "drowsy" → status ≠ "no_face" →
        alert_severity status = "medium" ∧
        alert_message name status = "⚠️ " ++ name ++ " needs attention") := by
  refine ⟨?_, rfl, rfl, rfl, ?_⟩
  · rw [generate_alert_fire _ _ _ _ _ _ _ h ha hs]
  · intro h1 h2 h3
    exact ⟨by simp [alert_severity, h1, h2, h3], by simp [alert_message, h1, h2, h3]⟩

/-- Witness for C8 at a concrete unrecognized status. -/
theorem alert_severity_determined_by_status_witness :
    (generate_alert [("s1", ⟨"attentive", false, 0⟩)] "s1" "Alice" "upside_down" [] 3).2 =
      some (.alert "upside_down" "s1" (alert_message "Alice" "upside_down")
        (alert_severity "upside_down") 3)
    ∧ alert_severity "looking_away" = "medium"
    ∧ alert_severity "drowsy" = "high"
    ∧ alert_severity "no_face" = "medium"
    ∧ ("upside_down" ≠ "looking_away" → "upside_down" ≠ "drowsy" →
        "upside_down" ≠ "no_face" →
        alert_severity "upside_down" = "medium" ∧
        alert_message "Alice" "upside_down" = "⚠️ " ++ "Alice" ++ " needs attention") :=
  alert_severity_determined_by_status [("s1", ⟨"attentive", false, 0⟩)]
    "s1" "Alice" "upside_down" ⟨"attentive", false, 0⟩ [] 3 rfl rfl (by decide)

/-- Claim C9: `analyze_attention` performs no analysis: it returns exactly
the status found in the report (default `"attentive"` when the report has no
status field), confidence exactly `1.0`, and an analysis dict holding only
that status. -/
theorem analyze_attention_passthrough (states : AnalyzerState) (sid : String)
    (data : List (String × String)) (t : Nat) :
    (analyze_attention states sid data t).2.1 = (dictGet data "status").getD "attentive"
    ∧ (analyze_attention states sid data t).2.2.1 = 1
    ∧ (analyze_attention states sid data t).2.2.2 =
        [("status", (dictGet data "status").getD "attentive")] := by
  simp [analyze_attention]

/-- Claim C10: `generate_alert` returns None (and changes nothing) for every
untracked student identity, including one whose state was deleted by
`reset_student_tracking`. -/
theorem generate_alert_none_for_untracked (sid name status : String)
    (a : List (String × String)) (t : Nat) :
    (∀ states : AnalyzerState, dictGet states sid = none →
        generate_alert states sid name status a t = (states, none))
    ∧ (∀ states : AnalyzerState,
        generate_alert (reset_student_tracking states sid) sid name status a t =
          (reset_student_tracking states sid, none)) := by
  constructor
  · intro states h
    exact generate_alert_untracked states sid name status a t h
  · intro states
    exact generate_alert_untracked _ sid name status a t (dictGet_reset_self states sid)

/-- Witness for C10 at a concrete untracked student. -/
theorem generate_alert_none_for_untracked_witness :
    generate_alert [] "s1" "Alice" "drowsy" [] 0 = ([], none) :=
  (generate_alert_none_for_untracked "s1" "Alice" "drowsy" [] 0).1 [] rfl

/-! ## `app/websocket_manager.py`: the `ConnectionManager`

WebSocket handles are opaque naturals.  Sends are driven by a failure oracle
`fails : WS → Bool`; sends the source wraps in `try/except` are recorded as
`Ev.send_failed` events, unguarded sends abort the operation (`Except.error`),
exactly where the source lets the exception propagate. -/

/-- An opaque WebSocket handle. -/
abbrev WS := Nat

/-- The per-student metadata record stored in `rooms_students_info`. -/
structure StudentInfo where
  id : String
  name : String
  status : String
  last_update : Nat
  alerts_count : Nat
deriving DecidableEq

/-- Values of `room_ids`: `connect_teacher` stores the room code string, the
teacher endpoint in `main.py` stores a metadata dict; neither value is ever
read back (only key membership is tested). -/
inductive RoomIdVal where
  | code (s : String)
  | meta (created_at : Nat) (teacher_count : Nat)
deriving DecidableEq

/-- The mutable state of a `ConnectionManager` (the `asyncio.Lock` is not
represented: operations are modelled as the atomic state transformations the
lock serializes). -/
structure Manager where
  rooms_students : List (String × List (String × WS))
  rooms_teachers : List (String × List WS)
  rooms_students_info : List (String × List (String × StudentInfo))
  teacher_rooms : List (WS × String)
  teacher_names : List (WS × String)
  user_websockets : List (String × WS)
  websocket_users : List (WS × String)
  room_ids : List (String × RoomIdVal)
  used_room_codes : List String
deriving DecidableEq

/-- The fresh manager built by `ConnectionManager.__init__`. -/
def initial_manager : Manager := ⟨[], [], [], [], [], [], [], [], []⟩

/-- Message payloads the manager sends (ISO timestamp strings omitted; no
logic reads them). -/
inductive Msg where
  | room_created_t (room_id teacher_name : String)
  | room_created (room_id : String) (students : List StudentInfo)
  | error_msg (message : String)
  | student_join_s (student_id student_name : String)
  | student_join_t (student_id student_name : String) (students : List StudentInfo)
  | student_leave_s (student_id student_name : String)
  | student_leave_t (student_id student_name : String) (students : List StudentInfo)
  | audio_user_left (from_user : String)
  | room_closed (message : String)
  | attention_update (student_id student_name : String)
      (status : Option String) (confidence : ℚ)
deriving DecidableEq

/-- Observable transport-level events of one operation, in order.  The
`ran_disconnect_teacher` / `ran_disconnect_student` markers record that a
broadcast ran a failed recipient through the matching disconnect path. -/
inductive Ev where
  | sent (ws : WS) (m : Msg)
  | send_failed (ws : WS) (m : Msg)
  | closed (ws : WS) (code : Nat)
  | ran_disconnect_teacher (ws : WS)
  | ran_disconnect_student (room_id student_id : String)
deriving DecidableEq

/-- One `send_json` guarded by `try/except`: the exception is caught and the
attempt recorded either way. -/
def attempt_send (fails : WS → Bool) (ws : WS) (m : Msg) : Ev :=
  if fails ws then .send_failed ws m else .sent ws m

/-- `string.ascii_uppercase + string.digits`, the alphabet actually used by
`ConnectionManager.generate_room_id`. -/
def characters : List Char := "ABCDEFGHIJKLMNOPQRSTUVWXYZ0123456789".toList

/-- `ROOM_CODE_CHARS` from `app/config.py` (commented there as excluding the
confusing characters 0, O, 1, I); `generate_room_id` does not use it. -/
def ROOM_CODE_CHARS : String := "ABCDEFGHJKLMNPQRSTUVWXYZ23456789"

/-- `ROOM_CODE_LENGTH` from `app/config.py` (also unused by the generator). -/
def ROOM_CODE_LENGTH : Nat := 5

/-- One candidate draw: `"".join(secrets.choice(characters) for _ in range(6))`.
The random source is abstracted as a stream `rnd` of indices into
`characters`; attempt `a` consumes indices `6*a .. 6*a+5`. -/
def mkCode (rnd : Nat → Fin characters.length) (attempt : Nat) : String :=
  String.mk ((List.range 6).map (fun j => characters.get (rnd (6 * attempt + j))))

/-- The `while attempts < max_attempts` loop of `generate_room_id`;
`remaining` counts attempts still allowed.  `none` models the
`raise Exception("Unable to generate unique room code")`. -/
def generate_room_id_loop (mgr : Manager) (rnd : Nat → Fin characters.length) :
    Nat → Nat → Option (String × Manager)
  | 0, _ => none
  | remaining + 1, attempt =>
    let room_id := mkCode rnd attempt
    if mgr.used_room_codes.contains room_id = false ∧
        dictContains mgr.rooms_teachers room_id = false then
      some (room_id, { mgr with used_room_codes := room_id :: mgr.used_room_codes })
    else
      generate_room_id_loop mgr rnd remaining (attempt + 1)

/-- `ConnectionManager.generate_room_id` (`max_attempts = 100`). -/
def generate_room_id (mgr : Manager) (rnd : Nat → Fin characters.length) :
    Option (String × Manager) :=
  generate_room_id_loop mgr rnd 100 0

/-- The reverse-map cleanup block duplicated at lines 196-204 and 238-246 of
`websocket_manager.py`. -/
def teacher_ws_cleanup (mgr : Manager) (ws : WS) : Manager :=
  let mgr1 := { mgr with
    teacher_rooms := dictErase mgr.teacher_rooms ws,
    teacher_names := dictErase mgr.teacher_names ws }
  match dictGet mgr1.websocket_users ws with
  | none => mgr1
  | some user_id =>
    { mgr1 with
      websocket_users := dictErase mgr1.websocket_users ws,
      user_websockets := dictErase mgr1.user_websockets user_id }

/-- `ConnectionManager.disconnect_teacher`.  The room teardown notifies each
remaining student inside `try/except` (send then close; a failed send skips
the close). -/
def disconnect_teacher (fails : WS → Bool) (mgr : Manager) (ws : WS) :
    Manager × List Ev :=
  match dictGet mgr.teacher_rooms ws with
  | none => (teacher_ws_cleanup mgr ws, [])
  | some room_id =>
    if room_id = "" then (teacher_ws_cleanup mgr ws, [])
    else
      match dictGet mgr.rooms_teachers room_id with
      | none => (teacher_ws_cleanup mgr ws, [])
      | some teachers =>
        let teachers2 := if ws ∈ teachers then teachers.erase ws else teachers
        let mgr1 := { mgr with
          rooms_teachers := dictSet mgr.rooms_teachers room_id teachers2 }
        if teachers2 = [] then
          let victims := dictValues ((dictGet mgr1.rooms_students room_id).getD [])
          let evs := victims.foldr
            (fun sws acc =>
              (if fails sws then
                [Ev.send_failed sws (.room_closed "Teacher has ended the class")]
              else
                [Ev.sent sws (.room_closed "Teacher has ended the class"),
                 Ev.closed sws 4003]) ++ acc) []
          let mgr2 := { mgr1 with
            rooms_teachers := dictErase mgr1.rooms_teachers room_id,
            rooms_students := dictErase mgr1.rooms_students room_id,
            rooms_students_info := dictErase mgr1.rooms_students_info room_id,
            room_ids := dictErase mgr1.room_ids room_id,
            used_room_codes := mgr1.used_room_codes.filter (fun c => c ≠ room_id) }
          (teacher_ws_cleanup mgr2 ws, evs)
        else
          (teacher_ws_cleanup mgr1 ws, [])

/-- `ConnectionManager.broadcast_to_room` (audio): every teacher and student
except `exclude`, each send individually caught, no disconnect handling. -/
def broadcast_to_room (fails : WS → Bool) (mgr : Manager) (room_id : String)
    (m : Msg) (exclude : Option WS) : List Ev :=
  let tlist := ((dictGet mgr.rooms_teachers room_id).getD []).filter
    (fun w => !(exclude == some w))
  let slist := (dictValues ((dictGet mgr.rooms_students room_id).getD [])).filter
    (fun w => !(exclude == some w))
  tlist.map (fun w => attempt_send fails w m) ++
    slist.map (fun w => attempt_send fails w m)

/-- `ConnectionManager.broadcast_to_room_teachers`: attempt each teacher in
order, collect the failures, then run each failure through
`disconnect_teacher`. -/
def broadcast_to_room_teachers (fails : WS → Bool) (mgr : Manager)
    (room_id : String) (m : Msg) : Manager × List Ev :=
  match dictGet mgr.rooms_teachers room_id with
  | none => (mgr, [])
  | some teachers =>
    let evs := teachers.map (fun w => attempt_send fails w m)
    let disconnected := teachers.filter (fun w => fails w)
    disconnected.foldl
      (fun acc w =>
        let r := disconnect_teacher fails acc.1 w
        (r.1, acc.2 ++ (Ev.ran_disconnect_teacher w :: r.2)))
      (mgr, evs)

/-- `ConnectionManager.broadcast_to_room_students`, generic in the disconnect
path `disc` run on each failed recipient (the fuelled `disconnect_student`
below instantiates it).  The `exclude_id` test mirrors the source's
`if exclude_id and student_id == exclude_id` (a falsy exclude excludes
nobody). -/
def broadcast_to_room_students_gen (fails : WS → Bool)
    (disc : Manager → String → String → Manager × List Ev)
    (mgr : Manager) (room_id : String) (m : Msg) (exclude_id : Option String) :
    Manager × List Ev :=
  match dictGet mgr.rooms_students room_id with
  | none => (mgr, [])
  | some students =>
    let ex := exclude_id.getD ""
    let recipients := students.filter (fun p => !((!(ex == "")) && (p.1 == ex)))
    let evs := recipients.map (fun p => attempt_send fails p.2 m)
    let disconnected := (recipients.filter (fun p => fails p.2)).map Prod.fst
    disconnected.foldl
      (fun acc sid =>
        let r := disc acc.1 room_id sid
        (r.1, acc.2 ++ (Ev.ran_disconnect_student room_id sid :: r.2)))
      (mgr, evs)

/-- The WebRTC reverse-map cleanup at lines 156-159 of
`disconnect_student`. -/
def webrtc_student_cleanup (mgr : Manager) (ws : WS) (student_id : String) : Manager :=
  let mgrB :=
    if dictContains mgr.websocket_users ws then
      { mgr with websocket_users := dictErase mgr.websocket_users ws }
    else mgr
  if dictContains mgrB.user_websockets student_id then
    { mgrB with user_websockets := dictErase mgrB.user_websockets student_id }
  else mgrB

/-- Lines 147-149 of `disconnect_student`: the guarded deletion from
`rooms_students_info`, capturing the display name (`"Unknown"` when
absent). -/
def disconnect_student_lock_info (mgr : Manager) (room_id student_id : String) :
    Manager × String :=
  match dictGet mgr.rooms_students_info room_id with
  | none => (mgr, "Unknown")
  | some im =>
    match dictGet im student_id with
    | none => (mgr, "Unknown")
    | some info =>
      ({ mgr with rooms_students_info := (dictSet mgr.rooms_students_info
          room_id (dictErase im student_id)) },
       info.name)

/-- Lines 151-159 of `disconnect_student`: the guarded deletion from
`rooms_students` plus WebRTC reverse-map cleanup. -/
def disconnect_student_lock_students (mgr : Manager) (room_id student_id : String) :
    Manager :=
  match dictGet mgr.rooms_students room_id with
  | none => mgr
  | some sm =>
    match dictGet sm student_id with
    | none => mgr
    | some ws =>
      webrtc_student_cleanup
        { mgr with rooms_students := (dictSet mgr.rooms_students
          room_id (dictErase sm student_id)) } ws student_id

/-- The lock-guarded part of `disconnect_student` (lines 146-159). -/
def disconnect_student_lock (mgr : Manager) (room_id student_id : String) :
    Manager × String :=
  let p1 := disconnect_student_lock_info mgr room_id student_id
  (disconnect_student_lock_students p1.1 room_id student_id, p1.2)

/-- `ConnectionManager.disconnect_student` with the nested
`broadcast_to_room_students` abstracted as `disc`. -/
def disconnect_student_core (fails : WS → Bool)
    (disc : Manager → String → String → Manager × List Ev)
    (mgr : Manager) (room_id student_id : String) : Manager × List Ev :=
  let r0 := disconnect_student_lock mgr room_id student_id
  let student_name := r0.2
  let r1 := broadcast_to_room_students_gen fails disc r0.1 room_id
    (.student_leave_s student_id student_name) none
  let roster := dictValues ((dictGet r1.1.rooms_students_info room_id).getD [])
  let r2 := broadcast_to_room_teachers fails r1.1 room_id
    (.student_leave_t student_id student_name roster)
  let evs3 := broadcast_to_room fails r2.1 room_id (.audio_user_left student_id) none
  (r2.1, r1.2 ++ r2.2 ++ evs3)

/-- `ConnectionManager.disconnect_student`.  `fuel` bounds the depth of the
nested broadcast-failure cleanup (each nesting level removes a student, so
any fuel at least the room size is exact; with no send failures the fuel is
irrelevant). -/
def disconnect_student (fails : WS → Bool) :
    Nat → Manager → String → String → Manager × List Ev
  | 0, mgr, room_id, student_id =>
    disconnect_student_core fails (fun m _ _ => (m, [])) mgr room_id student_id
  | fuel + 1, mgr, room_id, student_id =>
    disconnect_student_core fails
      (fun m r s => disconnect_student fails fuel m r s) mgr room_id student_id

/-- `ConnectionManager.broadcast_to_room_students`. -/
def broadcast_to_room_students (fails : WS → Bool) (fuel : Nat) (mgr : Manager)
    (room_id : String) (m : Msg) (exclude_id : Option String) : Manager × List Ev :=
  broadcast_to_room_students_gen fails (fun m2 r s => disconnect_student fails fuel m2 r s)
    mgr room_id m exclude_id

/-- `ConnectionManager.connect_student`.  `Except.error` marks the uncaught
`KeyError` at line 106 / 129 (missing `rooms_students_info` room) and an
unguarded failing send on the rejection path. -/
def connect_student (fails : WS → Bool) (fuel : Nat) (mgr : Manager) (ws : WS)
    (room_id student_id student_name : String) (now : Nat) :
    Except Unit (Manager × Bool × List Ev) :=
  if dictContains mgr.rooms_students room_id = false then
    if fails ws then .error ()
    else .ok (mgr, false,
      [Ev.sent ws (.error_msg ("Room " ++ room_id ++ " does not exist")),
       Ev.closed ws 4004])
  else if ((dictGet mgr.rooms_teachers room_id).getD []).length = 0 then
    if fails ws then .error ()
    else .ok (mgr, false,
      [Ev.sent ws (.error_msg ("Room " ++ room_id ++ " has no active teachers")),
       Ev.closed ws 4004])
  else
    match dictGet mgr.rooms_students_info room_id with
    | none => .error ()
    | some im =>
      let sm := (dictGet mgr.rooms_students room_id).getD []
      let mgr1 := { mgr with
        rooms_students := dictSet mgr.rooms_students room_id (dictSet sm student_id ws),
        rooms_students_info := (dictSet mgr.rooms_students_info room_id
          (dictSet im student_id ⟨student_id, student_name, "attentive", now, 0⟩)),
        user_websockets := dictSet mgr.user_websockets student_id ws,
        websocket_users := dictSet mgr.websocket_users ws student_id }
      let r1 := broadcast_to_room_students fails fuel mgr1 room_id
        (.student_join_s student_id student_name) (some student_id)
      match dictGet r1.1.rooms_students_info room_id with
      | none => .error ()
      | some im2 =>
        let r2 := broadcast_to_room_teachers fails r1.1 room_id
          (.student_join_t student_id student_name (dictValues im2))
        .ok (r2.1, true, r1.2 ++ r2.2)

/-- The `attention_data` dict passed to `update_student_attention`
(`status` and `confidence` keys, both possibly missing). -/
structure AttentionData where
  status : Option String
  confidence : Option ℚ
deriving DecidableEq

/-- `ConnectionManager.update_student_attention`.  The broadcast payload at
line 416 reads `rooms_students_info[room_id][student_id]["name"]`
unconditionally; `Except.error` marks the `KeyError` this raises when the
student (or room) is absent. -/
def update_student_attention (fails : WS → Bool) (mgr : Manager)
    (room_id student_id : String) (attention_data : AttentionData) (now : Nat) :
    Except Unit (Manager × List Ev) :=
  let mgr1 :=
    match dictGet mgr.rooms_students_info room_id with
    | none => mgr
    | some im =>
      match dictGet im student_id with
      | none => mgr
      | some info =>
        { mgr with rooms_students_info := (dictSet mgr.rooms_students_info
            room_id (dictSet im student_id { info with
              status := attention_data.status.getD "attentive",
              last_update := now })) }
  match (dictGet mgr1.rooms_students_info room_id).bind
      (fun im => dictGet im student_id) with
  | none => .error ()
  | some info =>
    let r := broadcast_to_room_teachers fails mgr1 room_id
      (.attention_update student_id info.name attention_data.status
        (attention_data.confidence.getD 0))
    .ok (r.1, r.2)

/-- `ConnectionManager.connect_teacher`: always generates a fresh code and
creates a new room.  `Except.error` marks generator exhaustion or a failing
unguarded `room_created` send. -/
def connect_teacher (fails : WS → Bool) (mgr : Manager) (ws : WS)
    (teacher_name : String) (rnd : Nat → Fin characters.length) :
    Except Unit (String × Manager × List Ev) :=
  match generate_room_id mgr rnd with
  | none => .error ()
  | some (room_id, mgr1) =>
    let teacher_id := "teacher_" ++ room_id
    let mgr2 := { mgr1 with
      rooms_teachers := dictSet mgr1.rooms_teachers room_id [ws],
      rooms_students := dictSet mgr1.rooms_students room_id [],
      rooms_students_info := dictSet mgr1.rooms_students_info room_id [],
      room_ids := dictSet mgr1.room_ids room_id (.code room_id),
      teacher_rooms := dictSet mgr1.teacher_rooms ws room_id,
      teacher_names := dictSet mgr1.teacher_names ws teacher_name,
      user_websockets := dictSet mgr1.user_websockets teacher_id ws,
      websocket_users := dictSet mgr1.websocket_users ws teacher_id }
    if fails ws then .error ()
    else .ok (room_id, mgr2, [Ev.sent ws (.room_created_t room_id teacher_name)])

/-- The `existing_room` scan at lines 241-245 of `main.py`: the first room in
`rooms_teachers` iteration order whose code is also in `room_ids`. -/
def first_existing_room (mgr : Manager) : Option String :=
  (mgr.rooms_teachers.find? (fun p => dictContains mgr.room_ids p.1)).map Prod.fst

/-- The room setup of the `/ws/teacher` endpoint (`teacher_websocket`,
`main.py` lines 240-299): reuse the first existing room when no code was
supplied, join the requested room if it exists, otherwise create a new one;
then send `room_created` (caught: a failing send disconnects the teacher and
aborts setup, returning `none` as the created room). -/
def teacher_websocket_connect (fails : WS → Bool) (mgr : Manager) (ws : WS)
    (room_id : Option String) (name : String) (rnd : Nat → Fin characters.length)
    (now : Nat) : Except Unit (Manager × Option String × List Ev) :=
  let er := (first_existing_room mgr).getD ""
  let rid := room_id.getD ""
  let setup : Except Unit (String × Manager) :=
    if er ≠ "" ∧ rid = "" then
      let teachers := (dictGet mgr.rooms_teachers er).getD []
      let teachers2 := if ws ∈ teachers then teachers else teachers ++ [ws]
      .ok (er, { mgr with rooms_teachers := dictSet mgr.rooms_teachers er teachers2 })
    else if rid ≠ "" ∧ dictContains mgr.rooms_teachers rid then
      let teachers := (dictGet mgr.rooms_teachers rid).getD []
      let teachers2 := if ws ∈ teachers then teachers else teachers ++ [ws]
      .ok (rid, { mgr with rooms_teachers := dictSet mgr.rooms_teachers rid teachers2 })
    else
      match generate_room_id mgr rnd with
      | none => .error ()
      | some (code, mgr1) =>
        .ok (code, { mgr1 with
          rooms_teachers := dictSet mgr1.rooms_teachers code [ws],
          rooms_students := dictSet mgr1.rooms_students code [],
          rooms_students_info := dictSet mgr1.rooms_students_info code [],
          room_ids := dictSet mgr1.room_ids code (.meta now 1) })
  match setup with
  | .error _ => .error ()
  | .ok (created, mgrX) =>
    let mgrY := { mgrX with
      teacher_rooms := dictSet mgrX.teacher_rooms ws created,
      teacher_names := dictSet mgrX.teacher_names ws name }
    let roster := dictValues ((dictGet mgrY.rooms_students_info created).getD [])
    if fails ws then
      let r := disconnect_teacher fails mgrY ws
      .ok (r.1, none,
        Ev.send_failed ws (.room_created created roster) ::
          Ev.ran_disconnect_teacher ws :: r.2)
    else
      .ok (mgrY, some created, [Ev.sent ws (.room_created created roster)])

/-- `ConnectionManager.room_exists`. -/
def room_exists (mgr : Manager) (room_id : String) : Bool :=
  dictContains mgr.rooms_teachers room_id &&
    ((dictGet mgr.rooms_teachers room_id).getD []).length > 0

/-! ### Shared concrete fixtures -/

/-- The all-sends-succeed oracle. -/
def no_failures : WS → Bool := fun _ => false

/-- A random stream that always draws index 0 of `characters` (the letter A). -/
def rnd_A : Nat → Fin characters.length := fun _ => ⟨0, by decide⟩

/-- A random stream that always draws index 14 of `characters` (the letter O,
one of the visually-confusable characters). -/
def rnd_O : Nat → Fin characters.length := fun _ => ⟨14, by decide⟩

/-- The manager state after one teacher (socket 1) has connected through the
`/ws/teacher` endpoint on a fresh process, drawing room code `"AAAAAA"`. -/
def mgrOne : Manager :=
  ⟨[("AAAAAA", [])], [("AAAAAA", [1])], [("AAAAAA", [])],
   [(1, "AAAAAA")], [(1, "T1")], [], [], [("AAAAAA", .meta 0 1)], ["AAAAAA"]⟩

/-- `mgrOne` after a second teacher (socket 2) connects with no room code. -/
def mgrTwo : Manager :=
  ⟨[("AAAAAA", [])], [("AAAAAA", [1, 2])], [("AAAAAA", [])],
   [(1, "AAAAAA"), (2, "AAAAAA")], [(1, "T1"), (2, "T2")], [], [],
   [("AAAAAA", .meta 0 1)], ["AAAAAA"]⟩

/-! ### Claim C2 -/

/-- Claim C2 (code bug): when the target student is absent from the room,
`update_student_attention` is not a silent no-op: the broadcast payload at
line 416 of `websocket_manager.py` reads
`rooms_students_info[room_id][student_id]["name"]` unconditionally and
raises `KeyError` (the lock-guarded state update is correctly skipped, but
the subsequent unguarded access defeats it). -/
theorem update_student_attention_raises_for_absent (fails : WS → Bool)
    (mgr : Manager) (room_id student_id : String) (d : AttentionData) (now : Nat)
    (h : (dictGet mgr.rooms_students_info room_id).bind
        (fun im => dictGet im student_id) = none) :
    update_student_attention fails mgr room_id student_id d now = .error () := by
  unfold update_student_attention
  cases ho : dictGet mgr.rooms_students_info room_id with
  | none => simp [ho]
  | some im =>
    cases hi : dictGet im student_id with
    | none => simp [ho, hi]
    | some info =>
      rw [ho] at h
      simp [hi] at h

/-- Witness for C2: a concrete room with one teacher and no students; an
attention update for the absent student `"S"` raises. -/
theorem update_student_attention_raises_for_absent_witness :
    update_student_attention no_failures mgrOne "AAAAAA" "S"
      ⟨some "looking_away", some 1⟩ 5 = .error () :=
  update_student_attention_raises_for_absent no_failures mgrOne "AAAAAA" "S"
    ⟨some "looking_away", some 1⟩ 5 (by decide)

/-! ### Claim C6 -/

theorem mkCode_length (rnd : Nat → Fin characters.length) (a : Nat) :
    (mkCode rnd a).length = 6 := by
  simp [mkCode, String.length]

theorem mkCode_chars (rnd : Nat → Fin characters.length) (a : Nat) :
    ∀ c ∈ (mkCode rnd a).toList, c ∈ characters := by
  intro c hc
  simp only [mkCode, String.toList, List.mem_map] at hc
  obtain ⟨j, _, hj⟩ := hc
  rw [← hj]
  exact List.get_mem characters (rnd (6 * a + j)).1 (rnd (6 * a + j)).2

theorem generate_room_id_loop_some (mgr : Manager)
    (rnd : Nat → Fin characters.length) :
    ∀ remaining attempt code mgr2,
      generate_room_id_loop mgr rnd remaining attempt = some (code, mgr2) →
      (∃ a, code = mkCode rnd a) ∧
      mgr.used_room_codes.contains code = false ∧
      dictContains mgr.rooms_teachers code = false ∧
      mgr2 = { mgr with used_room_codes := code :: mgr.used_room_codes } := by
  intro remaining
  induction remaining with
  | zero =>
    intro attempt code mgr2 h
    exact absurd h (by unfold generate_room_id_loop; exact Option.noConfusion)
  | succ r ih =>
    intro attempt code mgr2 h
    unfold generate_room_id_loop at h
    by_cases hc : mgr.used_room_codes.contains (mkCode rnd attempt) = false ∧
        dictContains mgr.rooms_teachers (mkCode rnd attempt) = false
    · rw [if_pos hc] at h
      injection h with hpair
      injection hpair with h1 h2
      subst h1
      subst h2
      exact ⟨⟨attempt, rfl⟩, hc.1, hc.2, rfl⟩
    · rw [if_neg hc] at h
      exact ih (attempt + 1) code mgr2 h

theorem generate_room_id_loop_none (mgr : Manager)
    (rnd : Nat → Fin characters.length) :
    ∀ remaining attempt,
      generate_room_id_loop mgr rnd remaining attempt = none ↔
      ∀ i < remaining,
        mgr.used_room_codes.contains (mkCode rnd (attempt + i)) = true ∨
        dictContains mgr.rooms_teachers (mkCode rnd (attempt + i)) = true := by
  intro remaining
  induction remaining with
  | zero =>
    intro attempt
    constructor
    · intro _ i hi
      exact absurd hi (Nat.not_lt_zero i)
    · intro _
      rfl
  | succ r ih =>
    intro attempt
    unfold generate_room_id_loop
    by_cases hc : mgr.used_room_codes.contains (mkCode rnd attempt) = false ∧
        dictContains mgr.rooms_teachers (mkCode rnd attempt) = false
    · rw [if_pos hc]
      constructor
      · intro h
        exact absurd h (fun hh => Option.noConfusion hh)
      · intro hall
        exfalso
        rcases hall 0 (Nat.succ_pos r) with h | h
        · rw [Nat.add_zero] at h; rw [hc.1] at h; exact Bool.false_ne_true h
        · rw [Nat.add_zero] at h; rw [hc.2] at h; exact Bool.false_ne_true h
    · rw [if_neg hc]
      rw [ih (attempt + 1)]
      constructor
      · intro hall i hi
        cases i with
        | zero =>
          rw [Nat.add_zero]
          cases h1 : mgr.used_room_codes.contains (mkCode rnd attempt) with
          | true => exact Or.inl rfl
          | false =>
            cases h2 : dictContains mgr.rooms_teachers (mkCode rnd attempt) with
            | true => exact Or.inr rfl
            | false => exact absurd ⟨h1, h2⟩ hc
        | succ j =>
          have hj := hall j (Nat.lt_of_succ_lt_succ hi)
          have he : attempt + 1 + j = attempt + (j + 1) := by omega
          rw [he] at hj
          exact hj
      · intro hall i hi
        have hj := hall (i + 1) (Nat.succ_lt_succ hi)
        have he : attempt + (i + 1) = attempt + 1 + i := by omega
        rw [he] at hj
        exact hj

/-- Claim C6 (amended): `generate_room_id` either returns a fresh 6-character
code drawn (via the abstracted random stream standing for `secrets.choice`)
from the 36-character alphabet `A-Z0-9` — which, contrary to the unused
`ROOM_CODE_CHARS` constant in `config.py`, includes the visually-confusable
characters 0, O, 1, I — such that the code collides neither with any present
room code nor with any code in `used_room_codes`, updating only the
used-code set; or it raises its exhaustion error after exactly 100 failed
attempts. -/
theorem generate_room_id_spec (mgr : Manager) (rnd : Nat → Fin characters.length) :
    (∀ code mgr2, generate_room_id mgr rnd = some (code, mgr2) →
      code.length = 6 ∧ (∀ c ∈ code.toList, c ∈ characters) ∧
      mgr.used_room_codes.contains code = false ∧
      dictContains mgr.rooms_teachers code = false ∧
      mgr2 = { mgr with used_room_codes := code :: mgr.used_room_codes })
    ∧ (generate_room_id mgr rnd = none ↔
        ∀ a < 100, mgr.used_room_codes.contains (mkCode rnd a) = true ∨
          dictContains mgr.rooms_teachers (mkCode rnd a) = true) := by
  constructor
  · intro code mgr2 h
    obtain ⟨⟨a, ha⟩, h1, h2, h3⟩ := generate_room_id_loop_some mgr rnd 100 0 code mgr2 h
    subst ha
    exact ⟨mkCode_length rnd a, mkCode_chars rnd a, h1, h2, h3⟩
  · have hbase := generate_room_id_loop_none mgr rnd 100 0
    unfold generate_room_id
    rw [hbase]
    constructor
    · intro hall a ha
      have hj := hall a ha
      rw [Nat.zero_add] at hj
      exact hj
    · intro hall a ha
      have hj := hall a ha
      rw [Nat.zero_add]
      exact hj

/-- Witness for C6 at a concrete fresh manager and random stream. -/
theorem generate_room_id_spec_witness :
    ("OOOOOO" : String).length = 6 ∧ (∀ c ∈ ("OOOOOO" : String).toList, c ∈ characters) ∧
    initial_manager.used_room_codes.contains "OOOOOO" = false ∧
    dictContains initial_manager.rooms_teachers "OOOOOO" = false ∧
    ({ initial_manager with used_room_codes := ["OOOOOO"] } : Manager) =
      { initial_manager with used_room_codes := "OOOOOO" :: initial_manager.used_room_codes } :=
  (generate_room_id_spec initial_manager rnd_O).1 "OOOOOO"
    { initial_manager with used_room_codes := ["OOOOOO"] } (by decide)

/-- Counterexample to C6 as stated: the generator returns a code consisting
of the letter O, which the confusable-free alphabet claimed by the spec
excludes (the alphabet actually used includes all of 0, O, 1, I). -/
theorem generate_room_id_emits_confusable_code :
    generate_room_id initial_manager rnd_O =
      some ("OOOOOO", { initial_manager with used_room_codes := ["OOOOOO"] })
    ∧ 'O' ∈ ("OOOOOO" : String).toList
    ∧ 'O' ∉ ROOM_CODE_CHARS.toList
    ∧ 'O' ∈ characters ∧ '0' ∈ characters ∧ '1' ∈ characters ∧ 'I' ∈ characters := by
  refine ⟨by decide, by decide, by decide, by decide, by decide, by decide, by decide⟩

/-! ### Claim C3 -/

/-- The manager after `ConnectionManager.connect_teacher` on a fresh state
with socket 1 drawing `"AAAAAA"`. -/
def mgrCT : Manager :=
  ⟨[("AAAAAA", [])], [("AAAAAA", [1])], [("AAAAAA", [])], [(1, "AAAAAA")],
   [(1, "T")], [("teacher_AAAAAA", 1)], [(1, "teacher_AAAAAA")],
   [("AAAAAA", .code "AAAAAA")], ["AAAAAA"]⟩

/-- Claim C3 (amended): the manager primitive `connect_teacher` always
creates a brand-new room — the code it returns was not a currently active
room and its teacher set is the fresh singleton of the new connection.  The
`/ws/teacher` endpoint, however, does not share this policy: when no room
code is supplied and some room already exists, it appends the connection to
the first existing room instead of creating a new one. -/
theorem teacher_connect_room_policy (fails : WS → Bool) (ws : WS) (name : String)
    (rnd : Nat → Fin characters.length) (now : Nat) :
    (∀ mgr code mgr2 evs,
      connect_teacher fails mgr ws name rnd = .ok (code, mgr2, evs) →
      dictContains mgr.rooms_teachers code = false ∧
      dictGet mgr2.rooms_teachers code = some [ws])
    ∧ (∀ mgr er teachers,
        first_existing_room mgr = some er → er ≠ "" →
        dictGet mgr.rooms_teachers er = some teachers → ws ∉ teachers →
        fails ws = false →
        teacher_websocket_connect fails mgr ws none name rnd now =
          .ok ({ mgr with
              rooms_teachers := dictSet mgr.rooms_teachers er (teachers ++ [ws]),
              teacher_rooms := dictSet mgr.teacher_rooms ws er,
              teacher_names := dictSet mgr.teacher_names ws name },
            some er,
            [Ev.sent ws (.room_created er
              (dictValues ((dictGet mgr.rooms_students_info er).getD [])))])) := by
  constructor
  · intro mgr code mgr2 evs h
    unfold connect_teacher at h
    cases hg : generate_room_id mgr rnd with
    | none =>
      rw [hg] at h
      exact absurd h (fun hh => Except.noConfusion hh)
    | some pr =>
      obtain ⟨code0, mgr1⟩ := pr
      rw [hg] at h
      obtain ⟨_, _, hfree, hused⟩ := generate_room_id_loop_some mgr rnd 100 0 code0 mgr1 hg
      dsimp only at h
      by_cases hfw : fails ws = true
      · rw [if_pos hfw] at h
        exact absurd h (fun hh => Except.noConfusion hh)
      · rw [if_neg hfw] at h
        simp only [Except.ok.injEq, Prod.mk.injEq] at h
        obtain ⟨hcode, hmgr, _⟩ := h
        subst hcode
        subst hmgr
        refine ⟨hfree, ?_⟩
        exact dictGet_set_self _ _ _
  · intro mgr er teachers hfer hne hter hnotin hf
    unfold teacher_websocket_connect
    rw [hfer]
    simp only [Option.getD_some, Option.getD_none]
    rw [if_pos ⟨hne, trivial⟩]
    rw [hter]
    simp only [Option.getD_some]
    rw [if_neg hnotin]
    simp [hf]

/-- Witness for C3 at a fresh manager and socket 1. -/
theorem teacher_connect_room_policy_witness :
    dictContains initial_manager.rooms_teachers "AAAAAA" = false ∧
    dictGet mgrCT.rooms_teachers "AAAAAA" = some [1] :=
  (teacher_connect_room_policy no_failures 1 "T" rnd_A 0).1 initial_manager
    "AAAAAA" mgrCT [Ev.sent 1 (.room_created_t "AAAAAA" "T")] (by rfl)

/-- Counterexample to C3 as stated: starting from a fresh process, a first
teacher connect (no room code) creates room `"AAAAAA"`; a second teacher
connect (also with no room code) does not create a new room — it returns the
same code and appends socket 2 to the pre-existing teacher set. -/
theorem teacher_endpoint_joins_existing_room :
    teacher_websocket_connect no_failures initial_manager 1 none "T1" rnd_A 0 =
      .ok (mgrOne, some "AAAAAA", [Ev.sent 1 (.room_created "AAAAAA" [])])
    ∧ teacher_websocket_connect no_failures mgrOne 2 none "T2" rnd_A 0 =
      .ok (mgrTwo, some "AAAAAA", [Ev.sent 2 (.room_created "AAAAAA" [])])
    ∧ dictGet mgrOne.rooms_teachers "AAAAAA" = some [1]
    ∧ dictGet mgrTwo.rooms_teachers "AAAAAA" = some [1, 2] := by
  refine ⟨by rfl, by rfl, by decide, by decide⟩

/-! ### Claim C4 -/

theorem webrtc_student_cleanup_rooms (mgr : Manager) (ws : WS) (student_id : String) :
    (webrtc_student_cleanup mgr ws student_id).rooms_students = mgr.rooms_students
    ∧ (webrtc_student_cleanup mgr ws student_id).rooms_students_info =
        mgr.rooms_students_info := by
  unfold webrtc_student_cleanup
  constructor <;> (dsimp only) <;> split <;> split <;> rfl

theorem filter_fails_ws (l : List WS) (fails : WS → Bool)
    (hf : ∀ w, fails w = false) : l.filter (fun w => fails w) = [] :=
  List.filter_eq_nil_iff.mpr (fun a _ => by simp [hf])

theorem filter_fails_pair (l : List (String × WS)) (fails : WS → Bool)
    (hf : ∀ w, fails w = false) : l.filter (fun p => fails p.2) = [] :=
  List.filter_eq_nil_iff.mpr (fun a _ => by simp [hf])

/-- With no failing recipient, a teacher broadcast changes no state. -/
theorem broadcast_to_room_teachers_state (fails : WS → Bool)
    (hf : ∀ w, fails w = false) (mgr : Manager) (room_id : String) (m : Msg) :
    (broadcast_to_room_teachers fails mgr room_id m).1 = mgr := by
  unfold broadcast_to_room_teachers
  cases h : dictGet mgr.rooms_teachers room_id with
  | none => rfl
  | some teachers =>
    dsimp only
    rw [filter_fails_ws teachers fails hf]
    rfl

/-- With no failing recipient, a student broadcast changes no state, whatever
the disconnect path. -/
theorem broadcast_to_room_students_gen_state (fails : WS → Bool)
    (hf : ∀ w, fails w = false)
    (disc : Manager → String → String → Manager × List Ev)
    (mgr : Manager) (room_id : String) (m : Msg) (exclude_id : Option String) :
    (broadcast_to_room_students_gen fails disc mgr room_id m exclude_id).1 = mgr := by
  unfold broadcast_to_room_students_gen
  cases h : dictGet mgr.rooms_students room_id with
  | none => rfl
  | some students =>
    dsimp only
    rw [filter_fails_pair (students.filter _) fails hf]
    rfl

/-- With no failing recipient, `disconnect_student` performs exactly its
lock-guarded state change. -/
theorem disconnect_student_core_state (fails : WS → Bool)
    (hf : ∀ w, fails w = false)
    (disc : Manager → String → String → Manager × List Ev)
    (mgr : Manager) (room_id student_id : String) :
    (disconnect_student_core fails disc mgr room_id student_id).1 =
      (disconnect_student_lock mgr room_id student_id).1 := by
  unfold disconnect_student_core
  dsimp only
  rw [broadcast_to_room_students_gen_state fails hf disc]
  rw [broadcast_to_room_teachers_state fails hf]

theorem disconnect_student_state (fails : WS → Bool)
    (hf : ∀ w, fails w = false) (fuel : Nat)
    (mgr : Manager) (room_id student_id : String) :
    (disconnect_student fails fuel mgr room_id student_id).1 =
      (disconnect_student_lock mgr room_id student_id).1 := by
  cases fuel with
  | zero => exact disconnect_student_core_state fails hf _ mgr room_id student_id
  | succ f => exact disconnect_student_core_state fails hf _ mgr room_id student_id

/-- The info stage of the lock-guarded deletion: identity when the student is
absent from `rooms_students_info[room_id]`. -/
theorem lock_info_absent (mgr : Manager) (room_id student_id : String)
    (h1 : (dictGet mgr.rooms_students_info room_id).bind
        (fun im => dictGet im student_id) = none) :
    disconnect_student_lock_info mgr room_id student_id = (mgr, "Unknown") := by
  unfold disconnect_student_lock_info
  cases ho : dictGet mgr.rooms_students_info room_id with
  | none => rfl
  | some im =>
    have h1b : dictGet im student_id = none := by rw [ho] at h1; exact h1
    dsimp only
    rw [h1b]

/-- The students stage of the lock-guarded deletion: identity when the
student is absent from `rooms_students[room_id]`. -/
theorem lock_students_absent (mgr : Manager) (room_id student_id : String)
    (h2 : (dictGet mgr.rooms_students room_id).bind
        (fun sm => dictGet sm student_id) = none) :
    disconnect_student_lock_students mgr room_id student_id = mgr := by
  unfold disconnect_student_lock_students
  cases hs : dictGet mgr.rooms_students room_id with
  | none => rfl
  | some sm =>
    have h2b : dictGet sm student_id = none := by rw [hs] at h2; exact h2
    dsimp only
    rw [h2b]

/-- The lock-guarded part of `disconnect_student` is the identity when the
student is absent from both maps. -/
theorem disconnect_student_lock_absent (mgr : Manager) (room_id student_id : String)
    (h1 : (dictGet mgr.rooms_students_info room_id).bind
        (fun im => dictGet im student_id) = none)
    (h2 : (dictGet mgr.rooms_students room_id).bind
        (fun sm => dictGet sm student_id) = none) :
    disconnect_student_lock mgr room_id student_id = (mgr, "Unknown") := by
  unfold disconnect_student_lock
  rw [lock_info_absent mgr room_id student_id h1]
  dsimp only
  rw [lock_students_absent mgr room_id student_id h2]

/-- After the info stage, the student is absent from the room's info map, and
`rooms_students` is untouched. -/
theorem lock_info_removes (mgr : Manager) (room_id student_id : String) :
    ((dictGet (disconnect_student_lock_info mgr room_id student_id).1.rooms_students_info
        room_id).bind (fun im => dictGet im student_id) = none)
    ∧ (disconnect_student_lock_info mgr room_id student_id).1.rooms_students =
        mgr.rooms_students := by
  unfold disconnect_student_lock_info
  cases ho : dictGet mgr.rooms_students_info room_id with
  | none =>
    dsimp only
    exact ⟨by simp [ho], rfl⟩
  | some im =>
    dsimp only
    cases hi : dictGet im student_id with
    | none =>
      dsimp only
      exact ⟨by simp [ho, hi], rfl⟩
    | some info =>
      dsimp only
      refine ⟨?_, rfl⟩
      simp [dictGet_set_self, dictGet_erase]

/-- After the students stage, the student is absent from the room's student
map, and `rooms_students_info` is untouched. -/
theorem lock_students_removes (mgr : Manager) (room_id student_id : String) :
    ((dictGet (disconnect_student_lock_students mgr room_id student_id).rooms_students
        room_id).bind (fun sm => dictGet sm student_id) = none)
    ∧ (disconnect_student_lock_students mgr room_id student_id).rooms_students_info =
        mgr.rooms_students_info := by
  unfold disconnect_student_lock_students
  cases hs : dictGet mgr.rooms_students room_id with
  | none =>
    dsimp only
    exact ⟨by simp [hs], rfl⟩
  | some sm =>
    dsimp only
    cases hsid : dictGet sm student_id with
    | none =>
      dsimp only
      exact ⟨by simp [hs, hsid], rfl⟩
    | some ws =>
      dsimp only
      constructor
      · rw [(webrtc_student_cleanup_rooms _ ws student_id).1]
        simp [dictGet_set_self, dictGet_erase]
      · rw [(webrtc_student_cleanup_rooms _ ws student_id).2]

/-- After the lock-guarded part of `disconnect_student`, the student is
absent from both maps of the resulting state. -/
theorem disconnect_student_lock_removes (mgr : Manager) (room_id student_id : String) :
    ((dictGet (disconnect_student_lock mgr room_id student_id).1.rooms_students_info
        room_id).bind (fun im => dictGet im student_id) = none)
    ∧ ((dictGet (disconnect_student_lock mgr room_id student_id).1.rooms_students
        room_id).bind (fun sm => dictGet sm student_id) = none) := by
  unfold disconnect_student_lock
  dsimp only
  constructor
  · rw [(lock_students_removes _ room_id student_id).2]
    exact (lock_info_removes mgr room_id student_id).1
  · exact (lock_students_removes _ room_id student_id).1

/-- Claim C4 (amended): calling `disconnect_student` for a student already
absent from the room changes no manager state and raises no error (the
function is total), and after any `disconnect_student` the student is absent
from both maps — so an immediate second call is a state-level no-op.  It is
not free of observable effects, however: the call still broadcasts
`student_leave` (with name `"Unknown"`) and `audio_user_left` notifications
to the room's remaining members. -/
theorem disconnect_student_idempotent_on_state (fails : WS → Bool) (fuel : Nat)
    (mgr : Manager) (room_id student_id : String)
    (hf : ∀ w, fails w = false)
    (h1 : (dictGet mgr.rooms_students_info room_id).bind
        (fun im => dictGet im student_id) = none)
    (h2 : (dictGet mgr.rooms_students room_id).bind
        (fun sm => dictGet sm student_id) = none) :
    (disconnect_student fails fuel mgr room_id student_id).1 = mgr
    ∧ (∀ (mgr0 : Manager) (fuel0 : Nat),
        ((dictGet (disconnect_student fails fuel0 mgr0 room_id student_id).1.rooms_students_info
            room_id).bind (fun im => dictGet im student_id) = none)
        ∧ ((dictGet (disconnect_student fails fuel0 mgr0 room_id student_id).1.rooms_students
            room_id).bind (fun sm => dictGet sm student_id) = none)) := by
  constructor
  · rw [disconnect_student_state fails hf fuel mgr room_id student_id]
    rw [disconnect_student_lock_absent mgr room_id student_id h1 h2]
  · intro mgr0 fuel0
    rw [disconnect_student_state fails hf fuel0 mgr0 room_id student_id]
    exact disconnect_student_lock_removes mgr0 room_id student_id

/-- Witness for C4: a second disconnect of an absent student in a concrete
one-teacher room leaves the state untouched. -/
theorem disconnect_student_idempotent_on_state_witness :
    (disconnect_student no_failures 1 mgrOne "AAAAAA" "GHOST").1 = mgrOne :=
  (disconnect_student_idempotent_on_state no_failures 1 mgrOne "AAAAAA" "GHOST"
    (fun _ => rfl) (by decide) (by decide)).1

/-- Counterexample to C4 as stated: disconnecting an absent student is NOT
free of observable effects — in a room with a live teacher it still emits a
`student_leave` broadcast (with name `"Unknown"`) and an `audio_user_left`
broadcast, even though the state is unchanged. -/
theorem disconnect_student_absent_still_broadcasts :
    (disconnect_student no_failures 1 mgrOne "AAAAAA" "GHOST").1 = mgrOne
    ∧ (disconnect_student no_failures 1 mgrOne "AAAAAA" "GHOST").2 =
      [Ev.sent 1 (.student_leave_t "GHOST" "Unknown" []),
       Ev.sent 1 (.audio_user_left "GHOST")]
    ∧ (disconnect_student no_failures 1 mgrOne "AAAAAA" "GHOST").2 ≠ [] := by
  refine ⟨by decide, by decide, by decide⟩

/-! ### Claim C7 -/

theorem mem_fold_evs_teacher (fails : WS → Bool) (l : List WS)
    (init : Manager × List Ev) (ev : Ev) (h : ev ∈ init.2) :
    ev ∈ (l.foldl (fun acc w =>
      let r := disconnect_teacher fails acc.1 w
      (r.1, acc.2 ++ (Ev.ran_disconnect_teacher w :: r.2))) init).2 := by
  induction l generalizing init with
  | nil => exact h
  | cons w l ih =>
    exact ih _ (List.mem_append.mpr (Or.inl h))

theorem marker_in_fold_teacher (fails : WS → Bool) (l : List WS)
    (init : Manager × List Ev) (w : WS) (hw : w ∈ l) :
    Ev.ran_disconnect_teacher w ∈ (l.foldl (fun acc w =>
      let r := disconnect_teacher fails acc.1 w
      (r.1, acc.2 ++ (Ev.ran_disconnect_teacher w :: r.2))) init).2 := by
  induction l generalizing init with
  | nil => cases hw
  | cons x l ih =>
    rcases List.mem_cons.mp hw with h | h
    · subst h
      exact mem_fold_evs_teacher fails l _ _
        (List.mem_append.mpr (Or.inr (List.mem_cons_self _ _)))
    · exact ih _ h

theorem mem_fold_evs_student
    (disc : Manager → String → String → Manager × List Ev) (room_id : String)
    (l : List String) (init : Manager × List Ev) (ev : Ev) (h : ev ∈ init.2) :
    ev ∈ (l.foldl (fun acc sid =>
      let r := disc acc.1 room_id sid
      (r.1, acc.2 ++ (Ev.ran_disconnect_student room_id sid :: r.2))) init).2 := by
  induction l generalizing init with
  | nil => exact h
  | cons sid l ih =>
    exact ih _ (List.mem_append.mpr (Or.inl h))

theorem marker_in_fold_student
    (disc : Manager → String → String → Manager × List Ev) (room_id : String)
    (l : List String) (init : Manager × List Ev) (sid : String) (hsid : sid ∈ l) :
    Ev.ran_disconnect_student room_id sid ∈ (l.foldl (fun acc sid =>
      let r := disc acc.1 room_id sid
      (r.1, acc.2 ++ (Ev.ran_disconnect_student room_id sid :: r.2))) init).2 := by
  induction l generalizing init with
  | nil => cases hsid
  | cons x l ih =>
    rcases List.mem_cons.mp hsid with h | h
    · subst h
      exact mem_fold_evs_student disc room_id l _ _
        (List.mem_append.mpr (Or.inr (List.mem_cons_self _ _)))
    · exact ih _ h

/-- Claim C7: in `broadcast_to_room_teachers` and
`broadcast_to_room_students`, a send failure to one recipient never prevents
the delivery attempt to any other recipient (every non-excluded recipient of
the room snapshot gets its send attempt recorded), and every recipient whose
send fails is subsequently run through the matching disconnect path
(`disconnect_teacher` / `disconnect_student`) as a side effect of the same
broadcast call.  Both functions are total — the per-recipient failures are
caught and never surface to the sender. -/
theorem broadcast_failure_isolation (fails : WS → Bool) (mgr : Manager)
    (room_id : String) (m : Msg) (exclude_id : Option String) (fuel : Nat) :
    (∀ teachers, dictGet mgr.rooms_teachers room_id = some teachers →
      ∀ w ∈ teachers,
        attempt_send fails w m ∈ (broadcast_to_room_teachers fails mgr room_id m).2
        ∧ (fails w = true →
            Ev.ran_disconnect_teacher w ∈
              (broadcast_to_room_teachers fails mgr room_id m).2))
    ∧ (∀ students, dictGet mgr.rooms_students room_id = some students →
        ∀ p ∈ students,
          (∀ e, exclude_id = some e → e ≠ "" → p.1 ≠ e) →
          attempt_send fails p.2 m ∈
            (broadcast_to_room_students fails fuel mgr room_id m exclude_id).2
          ∧ (fails p.2 = true →
              Ev.ran_disconnect_student room_id p.1 ∈
                (broadcast_to_room_students fails fuel mgr room_id m exclude_id).2)) := by
  constructor
  · intro teachers ht w hw
    unfold broadcast_to_room_teachers
    rw [ht]
    dsimp only
    constructor
    · exact mem_fold_evs_teacher fails _ _ _
        (List.mem_map.mpr ⟨w, hw, rfl⟩)
    · intro hfw
      exact marker_in_fold_teacher fails _ _ w
        (List.mem_filter.mpr ⟨hw, hfw⟩)
  · intro students hs p hp hkeep
    unfold broadcast_to_room_students broadcast_to_room_students_gen
    rw [hs]
    dsimp only
    have hkeepb :
        (!((!(exclude_id.getD "" == "")) && (p.1 == exclude_id.getD ""))) = true := by
      cases exclude_id with
      | none => simp
      | some e =>
        by_cases he : e = ""
        · subst he; simp
        · have hne := hkeep e rfl he
          simp [he, hne]
    have hrec : p ∈ students.filter
        (fun q => !((!(exclude_id.getD "" == "")) && (q.1 == exclude_id.getD ""))) :=
      List.mem_filter.mpr ⟨hp, hkeepb⟩
    constructor
    · exact mem_fold_evs_student _ room_id _ _ _
        (List.mem_map.mpr ⟨p, hrec, rfl⟩)
    · intro hfp
      exact marker_in_fold_student _ room_id _ _ p.1
        (List.mem_map.mpr ⟨p, List.mem_filter.mpr ⟨hrec, hfp⟩, rfl⟩)

/-- A failure oracle where sockets 2 and 3 are broken. -/
def fail23 : WS → Bool := fun w => (w == 2) || (w == 3)

/-- A room with two teachers (1 healthy, 2 broken) and two students
(`"s1"` on the broken socket 3, `"s2"` on the healthy socket 4). -/
def mgrBig : Manager :=
  ⟨[("AAAAAA", [("s1", 3), ("s2", 4)])], [("AAAAAA", [1, 2])], [("AAAAAA", [])],
   [], [], [], [], [], []⟩

/-- Witness for C7: with sockets 2 and 3 broken, the healthy teacher still
gets its attempt, the broken teacher is run through `disconnect_teacher`,
the broken student still gets its attempt and is run through
`disconnect_student`. -/
theorem broadcast_failure_isolation_witness :
    (attempt_send fail23 1 (.room_closed "end") ∈
        (broadcast_to_room_teachers fail23 mgrBig "AAAAAA" (.room_closed "end")).2
      ∧ (fail23 1 = true → Ev.ran_disconnect_teacher 1 ∈
          (broadcast_to_room_teachers fail23 mgrBig "AAAAAA" (.room_closed "end")).2))
    ∧ (attempt_send fail23 2 (.room_closed "end") ∈
        (broadcast_to_room_teachers fail23 mgrBig "AAAAAA" (.room_closed "end")).2
      ∧ (fail23 2 = true → Ev.ran_disconnect_teacher 2 ∈
          (broadcast_to_room_teachers fail23 mgrBig "AAAAAA" (.room_closed "end")).2))
    ∧ (attempt_send fail23 3 (.room_closed "end") ∈
        (broadcast_to_room_students fail23 1 mgrBig "AAAAAA" (.room_closed "end") none).2
      ∧ (fail23 3 = true → Ev.ran_disconnect_student "AAAAAA" "s1" ∈
          (broadcast_to_room_students fail23 1 mgrBig "AAAAAA" (.room_closed "end") none).2)) :=
  ⟨(broadcast_failure_isolation fail23 mgrBig "AAAAAA" (.room_closed "end") none 1).1
      [1, 2] rfl 1 (by decide),
   (broadcast_failure_isolation fail23 mgrBig "AAAAAA" (.room_closed "end") none 1).1
      [1, 2] rfl 2 (by decide),
   (broadcast_failure_isolation fail23 mgrBig "AAAAAA" (.room_closed "end") none 1).2
      [("s1", 3), ("s2", 4)] rfl ("s1", 3) (by decide)
      (fun e he _ => Option.noConfusion he)⟩

/-! ### Claim C5: the students / studentInfo key-set invariant -/

/-- The C5 invariant: `rooms_students` and `rooms_students_info` have the
same room keys, and for each room the same student keys. -/
def rooms_aligned (mgr : Manager) : Prop :=
  (∀ r, (dictGet mgr.rooms_students r).isSome ↔
      (dictGet mgr.rooms_students_info r).isSome)
  ∧ (∀ r sm im, dictGet mgr.rooms_students r = some sm →
      dictGet mgr.rooms_students_info r = some im →
      ∀ s, (dictGet sm s).isSome ↔ (dictGet im s).isSome)

theorem rooms_aligned_of_proj (mgr mgr2 : Manager)
    (h1 : mgr2.rooms_students = mgr.rooms_students)
    (h2 : mgr2.rooms_students_info = mgr.rooms_students_info)
    (h : rooms_aligned mgr) : rooms_aligned mgr2 := by
  unfold rooms_aligned at h ⊢
  rw [h1, h2]
  exact h

theorem rooms_aligned_erase_room (mgr mgr2 : Manager) (room : String)
    (h1 : mgr2.rooms_students = dictErase mgr.rooms_students room)
    (h2 : mgr2.rooms_students_info = dictErase mgr.rooms_students_info room)
    (h : rooms_aligned mgr) : rooms_aligned mgr2 := by
  obtain ⟨hA, hB⟩ := h
  constructor
  · intro r
    rw [h1, h2, dictGet_erase, dictGet_erase]
    by_cases hr : r = room
    · simp [hr]
    · rw [if_neg hr, if_neg hr]
      exact hA r
  · intro r sm im hsm him s
    rw [h1, dictGet_erase] at hsm
    rw [h2, dictGet_erase] at him
    by_cases hr : r = room
    · rw [if_pos hr] at hsm
      exact absurd hsm (fun hh => Option.noConfusion hh)
    · rw [if_neg hr] at hsm
      rw [if_neg hr] at him
      exact hB r sm im hsm him s

theorem rooms_aligned_set_room (mgr mgr2 : Manager) (room : String)
    (sm2 : List (String × WS)) (im2 : List (String × StudentInfo))
    (h1 : mgr2.rooms_students = dictSet mgr.rooms_students room sm2)
    (h2 : mgr2.rooms_students_info = dictSet mgr.rooms_students_info room im2)
    (hkeys : ∀ s, (dictGet sm2 s).isSome ↔ (dictGet im2 s).isSome)
    (h : rooms_aligned mgr) : rooms_aligned mgr2 := by
  obtain ⟨hA, hB⟩ := h
  constructor
  · intro r
    rw [h1, h2, dictGet_set, dictGet_set]
    by_cases hr : r = room
    · simp [hr]
    · rw [if_neg hr, if_neg hr]
      exact hA r
  · intro r sm im hsm him s
    rw [h1, dictGet_set] at hsm
    rw [h2, dictGet_set] at him
    by_cases hr : r = room
    · rw [if_pos hr] at hsm him
      injection hsm with hsm
      injection him with him
      subst hsm
      subst him
      exact hkeys s
    · rw [if_neg hr] at hsm
      rw [if_neg hr] at him
      exact hB r sm im hsm him s

theorem rooms_aligned_set_info_only (mgr mgr2 : Manager) (room : String)
    (im2 : List (String × StudentInfo))
    (h1 : mgr2.rooms_students = mgr.rooms_students)
    (h2 : mgr2.rooms_students_info = dictSet mgr.rooms_students_info room im2)
    (hpresent : (dictGet mgr.rooms_students_info room).isSome)
    (hkeys : ∀ sm, dictGet mgr.rooms_students room = some sm →
        ∀ s, (dictGet sm s).isSome ↔ (dictGet im2 s).isSome)
    (h : rooms_aligned mgr) : rooms_aligned mgr2 := by
  obtain ⟨hA, hB⟩ := h
  constructor
  · intro r
    rw [h1, h2, dictGet_set]
    by_cases hr : r = room
    · subst hr
      simp only [eq_self_iff_true, if_true, Option.isSome_some, iff_true]
      exact (hA r).mpr hpresent
    · rw [if_neg hr]
      exact hA r
  · intro r sm im hsm him s
    rw [h1] at hsm
    rw [h2, dictGet_set] at him
    by_cases hr : r = room
    · subst hr
      rw [if_pos rfl] at him
      injection him with him
      subst him
      exact hkeys sm hsm s
    · rw [if_neg hr] at him
      exact hB r sm im hsm him s

theorem teacher_ws_cleanup_rooms_maps (mgr : Manager) (ws : WS) :
    (teacher_ws_cleanup mgr ws).rooms_students = mgr.rooms_students
    ∧ (teacher_ws_cleanup mgr ws).rooms_students_info = mgr.rooms_students_info := by
  unfold teacher_ws_cleanup
  constructor <;> (dsimp only) <;> split <;> rfl

theorem teacher_ws_cleanup_aligned (mgr : Manager) (ws : WS)
    (h : rooms_aligned mgr) : rooms_aligned (teacher_ws_cleanup mgr ws) :=
  rooms_aligned_of_proj mgr _ (teacher_ws_cleanup_rooms_maps mgr ws).1
    (teacher_ws_cleanup_rooms_maps mgr ws).2 h

theorem disconnect_teacher_aligned (fails : WS → Bool) (mgr : Manager) (ws : WS)
    (h : rooms_aligned mgr) :
    rooms_aligned (disconnect_teacher fails mgr ws).1 := by
  unfold disconnect_teacher
  cases h1 : dictGet mgr.teacher_rooms ws with
  | none => exact teacher_ws_cleanup_aligned mgr ws h
  | some room_id =>
    dsimp only
    by_cases hr0 : room_id = ""
    · rw [if_pos hr0]
      exact teacher_ws_cleanup_aligned mgr ws h
    · rw [if_neg hr0]
      cases h2 : dictGet mgr.rooms_teachers room_id with
      | none => exact teacher_ws_cleanup_aligned mgr ws h
      | some teachers =>
        dsimp only
        by_cases hmem : ws ∈ teachers
        · simp only [hmem, if_true]
          split
          · exact teacher_ws_cleanup_aligned _ ws
              (rooms_aligned_erase_room mgr _ room_id rfl rfl h)
          · exact teacher_ws_cleanup_aligned _ ws
              (rooms_aligned_of_proj mgr _ rfl rfl h)
        · simp only [hmem, if_false]
          split
          · exact teacher_ws_cleanup_aligned _ ws
              (rooms_aligned_erase_room mgr _ room_id rfl rfl h)
          · exact teacher_ws_cleanup_aligned _ ws
              (rooms_aligned_of_proj mgr _ rfl rfl h)

theorem foldl_teacher_aligned (fails : WS → Bool) (l : List WS)
    (init : Manager × List Ev) (h : rooms_aligned init.1) :
    rooms_aligned ((l.foldl (fun acc w =>
      let r := disconnect_teacher fails acc.1 w
      (r.1, acc.2 ++ (Ev.ran_disconnect_teacher w :: r.2))) init).1) := by
  induction l generalizing init with
  | nil => exact h
  | cons w l ih => exact ih _ (disconnect_teacher_aligned fails init.1 w h)

theorem broadcast_to_room_teachers_aligned (fails : WS → Bool) (mgr : Manager)
    (room_id : String) (m : Msg) (h : rooms_aligned mgr) :
    rooms_aligned (broadcast_to_room_teachers fails mgr room_id m).1 := by
  unfold broadcast_to_room_teachers
  cases ht : dictGet mgr.rooms_teachers room_id with
  | none => exact h
  | some teachers => exact foldl_teacher_aligned fails _ _ h

theorem foldl_student_aligned
    (disc : Manager → String → String → Manager × List Ev)
    (hd : ∀ m r s, rooms_aligned m → rooms_aligned (disc m r s).1)
    (room_id : String) (l : List String) (init : Manager × List Ev)
    (h : rooms_aligned init.1) :
    rooms_aligned ((l.foldl (fun acc sid =>
      let r := disc acc.1 room_id sid
      (r.1, acc.2 ++ (Ev.ran_disconnect_student room_id sid :: r.2))) init).1) := by
  induction l generalizing init with
  | nil => exact h
  | cons sid l ih => exact ih _ (hd init.1 room_id sid h)

theorem broadcast_to_room_students_gen_aligned (fails : WS → Bool)
    (disc : Manager → String → String → Manager × List Ev)
    (hd : ∀ m r s, rooms_aligned m → rooms_aligned (disc m r s).1)
    (mgr : Manager) (room_id : String) (m : Msg) (exclude_id : Option String)
    (h : rooms_aligned mgr) :
    rooms_aligned (broadcast_to_room_students_gen fails disc mgr room_id m exclude_id).1 := by
  unfold broadcast_to_room_students_gen
  cases hs : dictGet mgr.rooms_students room_id with
  | none => exact h
  | some students => exact foldl_student_aligned disc hd room_id _ _ h

theorem lock_info_present (mgr : Manager) (room_id student_id : String)
    (im : List (String × StudentInfo)) (info : StudentInfo)
    (ho : dictGet mgr.rooms_students_info room_id = some im)
    (hi : dictGet im student_id = some info) :
    disconnect_student_lock_info mgr room_id student_id =
      ({ mgr with rooms_students_info := (dictSet mgr.rooms_students_info
          room_id (dictErase im student_id)) }, info.name) := by
  unfold disconnect_student_lock_info
  rw [ho]
  dsimp only
  rw [hi]

theorem lock_students_present (mgr : Manager) (room_id student_id : String)
    (sm : List (String × WS)) (w : WS)
    (hs : dictGet mgr.rooms_students room_id = some sm)
    (hw : dictGet sm student_id = some w) :
    disconnect_student_lock_students mgr room_id student_id =
      webrtc_student_cleanup
        { mgr with rooms_students := (dictSet mgr.rooms_students
          room_id (dictErase sm student_id)) } w student_id := by
  unfold disconnect_student_lock_students
  rw [hs]
  dsimp only
  rw [hw]

theorem disconnect_student_lock_aligned (mgr : Manager) (room_id student_id : String)
    (h : rooms_aligned mgr) :
    rooms_aligned (disconnect_student_lock mgr room_id student_id).1 := by
  obtain ⟨hA, hB⟩ := h
  unfold disconnect_student_lock
  dsimp only
  cases ho : dictGet mgr.rooms_students_info room_id with
  | none =>
    have hswn : dictGet mgr.rooms_students room_id = none := by
      cases hsw : dictGet mgr.rooms_students room_id with
      | none => rfl
      | some sm =>
        have hiff := hA room_id
        rw [hsw, ho] at hiff
        simp at hiff
    rw [lock_info_absent mgr room_id student_id (by rw [ho]; rfl)]
    dsimp only
    rw [lock_students_absent mgr room_id student_id (by rw [hswn]; rfl)]
    exact ⟨hA, hB⟩
  | some im =>
    cases hi : dictGet im student_id with
    | none =>
      rw [lock_info_absent mgr room_id student_id (by rw [ho]; exact hi)]
      dsimp only
      cases hsw : dictGet mgr.rooms_students room_id with
      | none =>
        rw [lock_students_absent mgr room_id student_id (by rw [hsw]; rfl)]
        exact ⟨hA, hB⟩
      | some sm =>
        have hsid : dictGet sm student_id = none := by
          have hiff := hB room_id sm im hsw ho student_id
          rw [hi] at hiff
          cases hq : dictGet sm student_id with
          | none => rfl
          | some w => rw [hq] at hiff; simp at hiff
        rw [lock_students_absent mgr room_id student_id (by rw [hsw]; exact hsid)]
        exact ⟨hA, hB⟩
    | some info =>
      have hswp : ∃ sm, dictGet mgr.rooms_students room_id = some sm := by
        have hiff := hA room_id
        rw [ho] at hiff
        cases hq : dictGet mgr.rooms_students room_id with
        | none => rw [hq] at hiff; simp at hiff
        | some sm => exact ⟨sm, rfl⟩
      obtain ⟨sm, hsw⟩ := hswp
      have hsidp : ∃ w, dictGet sm student_id = some w := by
        have hiff := hB room_id sm im hsw ho student_id
        rw [hi] at hiff
        cases hq : dictGet sm student_id with
        | none => rw [hq] at hiff; simp at hiff
        | some w => exact ⟨w, rfl⟩
      obtain ⟨w, hsid⟩ := hsidp
      rw [lock_info_present mgr room_id student_id im info ho hi]
      dsimp only
      rw [lock_students_present
        { mgr with rooms_students_info := (dictSet mgr.rooms_students_info
            room_id (dictErase im student_id)) }
        room_id student_id sm w hsw hsid]
      apply rooms_aligned_of_proj _ _
        (webrtc_student_cleanup_rooms _ w student_id).1
        (webrtc_student_cleanup_rooms _ w student_id).2
      apply rooms_aligned_set_room mgr _ room_id
        (dictErase sm student_id) (dictErase im student_id) rfl rfl
      · intro s
        rw [dictGet_erase, dictGet_erase]
        by_cases hss : s = student_id
        · simp [hss]
        · rw [if_neg hss, if_neg hss]
          exact hB room_id sm im hsw ho s
      · exact ⟨hA, hB⟩

theorem disconnect_student_core_aligned (fails : WS → Bool)
    (disc : Manager → String → String → Manager × List Ev)
    (hd : ∀ m r s, rooms_aligned m → rooms_aligned (disc m r s).1)
    (mgr : Manager) (room_id student_id : String) (h : rooms_aligned mgr) :
    rooms_aligned (disconnect_student_core fails disc mgr room_id student_id).1 := by
  unfold disconnect_student_core
  dsimp only
  exact broadcast_to_room_teachers_aligned fails _ _ _
    (broadcast_to_room_students_gen_aligned fails disc hd _ _ _ _
      (disconnect_student_lock_aligned mgr room_id student_id h))

theorem disconnect_student_aligned (fails : WS → Bool) :
    ∀ (fuel : Nat) (mgr : Manager) (room_id student_id : String),
      rooms_aligned mgr →
      rooms_aligned (disconnect_student fails fuel mgr room_id student_id).1 := by
  intro fuel
  induction fuel with
  | zero =>
    intro mgr room_id student_id h
    exact disconnect_student_core_aligned fails _ (fun m r s hm => hm)
      mgr room_id student_id h
  | succ f ih =>
    intro mgr room_id student_id h
    exact disconnect_student_core_aligned fails _ (fun m r s hm => ih m r s hm)
      mgr room_id student_id h

theorem broadcast_to_room_students_aligned (fails : WS → Bool) (fuel : Nat)
    (mgr : Manager) (room_id : String) (m : Msg) (exclude_id : Option String)
    (h : rooms_aligned mgr) :
    rooms_aligned (broadcast_to_room_students fails fuel mgr room_id m exclude_id).1 :=
  broadcast_to_room_students_gen_aligned fails _
    (fun m2 r s hm => disconnect_student_aligned fails fuel m2 r s hm)
    mgr room_id m exclude_id h

/-- With no failing recipient, `broadcast_to_room_students` changes no
state. -/
theorem broadcast_to_room_students_state (fails : WS → Bool)
    (hf : ∀ w, fails w = false) (fuel : Nat) (mgr : Manager) (room_id : String)
    (m : Msg) (exclude_id : Option String) :
    (broadcast_to_room_students fails fuel mgr room_id m exclude_id).1 = mgr :=
  broadcast_to_room_students_gen_state fails hf _ mgr room_id m exclude_id

theorem connect_student_aligned (fails : WS → Bool) (fuel : Nat) (mgr : Manager)
    (ws : WS) (room_id student_id student_name : String) (now : Nat)
    (res : Manager × Bool × List Ev) (h : rooms_aligned mgr)
    (hok : connect_student fails fuel mgr ws room_id student_id student_name now =
      .ok res) :
    rooms_aligned res.1 := by
  unfold connect_student at hok
  by_cases hc1 : dictContains mgr.rooms_students room_id = false
  · rw [if_pos hc1] at hok
    by_cases hf : fails ws = true
    · rw [if_pos hf] at hok
      exact absurd hok (fun hh => Except.noConfusion hh)
    · rw [if_neg hf] at hok
      injection hok with hok
      rw [← hok]
      exact h
  · rw [if_neg hc1] at hok
    by_cases hc2 : ((dictGet mgr.rooms_teachers room_id).getD []).length = 0
    · rw [if_pos hc2] at hok
      by_cases hf : fails ws = true
      · rw [if_pos hf] at hok
        exact absurd hok (fun hh => Except.noConfusion hh)
      · rw [if_neg hf] at hok
        injection hok with hok
        rw [← hok]
        exact h
    · rw [if_neg hc2] at hok
      cases him : dictGet mgr.rooms_students_info room_id with
      | none =>
        rw [him] at hok
        exact absurd hok (fun hh => Except.noConfusion hh)
      | some im =>
        rw [him] at hok
        dsimp only at hok
        have hsmp : ∃ sm, dictGet mgr.rooms_students room_id = some sm := by
          cases hq : dictGet mgr.rooms_students room_id with
          | none => rw [dictContains, hq] at hc1; simp at hc1
          | some sm => exact ⟨sm, rfl⟩
        obtain ⟨sm, hsw⟩ := hsmp
        split at hok
        · exact absurd hok (fun hh => Except.noConfusion hh)
        · injection hok with hok
          rw [← hok]
          dsimp only
          apply broadcast_to_room_teachers_aligned
          apply broadcast_to_room_students_aligned
          apply rooms_aligned_set_room mgr _ room_id _ _ rfl rfl ?_ h
          intro s
          rw [hsw]
          simp only [Option.getD_some]
          rw [dictGet_set, dictGet_set]
          by_cases hss : s = student_id
          · simp [hss]
          · rw [if_neg hss, if_neg hss]
            exact h.2 room_id sm im hsw him s

theorem update_student_attention_aligned (fails : WS → Bool) (mgr : Manager)
    (room_id student_id : String) (d : AttentionData) (now : Nat)
    (res : Manager × List Ev) (h : rooms_aligned mgr)
    (hok : update_student_attention fails mgr room_id student_id d now = .ok res) :
    rooms_aligned res.1 := by
  unfold update_student_attention at hok
  cases ho : dictGet mgr.rooms_students_info room_id with
  | none =>
    rw [ho] at hok
    try dsimp only at hok
    rw [ho] at hok
    try dsimp only at hok
    exact absurd hok (fun hh => Except.noConfusion hh)
  | some im =>
    rw [ho] at hok
    try dsimp only at hok
    cases hi : dictGet im student_id with
    | none =>
      rw [hi] at hok
      try dsimp only at hok
      rw [ho] at hok
      try dsimp only at hok
      rw [Option.some_bind] at hok
      rw [hi] at hok
      try dsimp only at hok
      exact absurd hok (fun hh => Except.noConfusion hh)
    | some info =>
      rw [hi] at hok
      try dsimp only at hok
      rw [dictGet_set_self] at hok
      try dsimp only at hok
      rw [Option.some_bind] at hok
      rw [dictGet_set_self] at hok
      try dsimp only at hok
      injection hok with hok
      rw [← hok]
      dsimp only
      apply broadcast_to_room_teachers_aligned
      exact rooms_aligned_set_info_only mgr
        { mgr with rooms_students_info := (dictSet mgr.rooms_students_info room_id (dictSet im student_id { info with status := d.status.getD "attentive", last_update := now })) }
        room_id
        (dictSet im student_id { info with status := d.status.getD "attentive", last_update := now })
        rfl rfl (by rw [ho]; exact rfl)
        (fun sm hsm s => by
          rw [dictGet_set]
          by_cases hss : s = student_id
          · subst hss
            simp only [eq_self_iff_true, if_true, Option.isSome_some, iff_true]
            have hiff := h.2 room_id sm im hsm ho s
            rw [hi] at hiff
            exact hiff.mpr rfl
          · rw [if_neg hss]
            exact h.2 room_id sm im hsm ho s)
        h

theorem connect_teacher_aligned (fails : WS → Bool) (mgr : Manager) (ws : WS)
    (name : String) (rnd : Nat → Fin characters.length)
    (code : String) (mgr2 : Manager) (evs : List Ev)
    (h : rooms_aligned mgr)
    (hok : connect_teacher fails mgr ws name rnd = .ok (code, mgr2, evs)) :
    rooms_aligned mgr2 := by
  unfold connect_teacher at hok
  cases hg : generate_room_id mgr rnd with
  | none =>
    rw [hg] at hok
    exact absurd hok (fun hh => Except.noConfusion hh)
  | some pr =>
    obtain ⟨code0, mgr1⟩ := pr
    rw [hg] at hok
    dsimp only at hok
    obtain ⟨_, _, _, hused⟩ := generate_room_id_loop_some mgr rnd 100 0 code0 mgr1 hg
    subst hused
    by_cases hf : fails ws = true
    · rw [if_pos hf] at hok
      exact absurd hok (fun hh => Except.noConfusion hh)
    · rw [if_neg hf] at hok
      simp only [Except.ok.injEq, Prod.mk.injEq] at hok
      obtain ⟨hcode, hmgr, _⟩ := hok
      rw [← hmgr]
      apply rooms_aligned_set_room mgr _ code0 [] [] rfl rfl
      · intro s
        simp [dictGet]
      · exact h

theorem teacher_websocket_connect_aligned (fails : WS → Bool) (mgr : Manager)
    (ws : WS) (room_id : Option String) (name : String)
    (rnd : Nat → Fin characters.length) (now : Nat)
    (res : Manager × Option String × List Ev) (h : rooms_aligned mgr)
    (hok : teacher_websocket_connect fails mgr ws room_id name rnd now = .ok res) :
    rooms_aligned res.1 := by
  unfold teacher_websocket_connect at hok
  dsimp only at hok
  by_cases hb1 : (first_existing_room mgr).getD "" ≠ "" ∧ room_id.getD "" = ""
  · rw [if_pos hb1] at hok
    dsimp only at hok
    by_cases hf : fails ws = true
    · rw [if_pos hf] at hok
      injection hok with hok
      rw [← hok]
      exact disconnect_teacher_aligned fails _ ws (rooms_aligned_of_proj mgr _ rfl rfl h)
    · rw [if_neg hf] at hok
      injection hok with hok
      rw [← hok]
      exact rooms_aligned_of_proj mgr _ rfl rfl h
  · rw [if_neg hb1] at hok
    by_cases hb2 : room_id.getD "" ≠ "" ∧
        dictContains mgr.rooms_teachers (room_id.getD "") = true
    · rw [if_pos hb2] at hok
      dsimp only at hok
      by_cases hf : fails ws = true
      · rw [if_pos hf] at hok
        injection hok with hok
        rw [← hok]
        exact disconnect_teacher_aligned fails _ ws
          (rooms_aligned_of_proj mgr _ rfl rfl h)
      · rw [if_neg hf] at hok
        injection hok with hok
        rw [← hok]
        exact rooms_aligned_of_proj mgr _ rfl rfl h
    · rw [if_neg hb2] at hok
      cases hg : generate_room_id mgr rnd with
      | none =>
        rw [hg] at hok
        exact absurd hok (fun hh => Except.noConfusion hh)
      | some pr =>
        obtain ⟨code, mgr1⟩ := pr
        rw [hg] at hok
        dsimp only at hok
        obtain ⟨_, _, _, hused⟩ := generate_room_id_loop_some mgr rnd 100 0 code mgr1 hg
        subst hused
        have haligned : rooms_aligned
            { mgr with
              used_room_codes := code :: mgr.used_room_codes,
              rooms_teachers := dictSet mgr.rooms_teachers code [ws],
              rooms_students := dictSet mgr.rooms_students code [],
              rooms_students_info := dictSet mgr.rooms_students_info code [],
              room_ids := dictSet mgr.room_ids code (.meta now 1) } := by
          apply rooms_aligned_set_room mgr _ code [] [] rfl rfl
          · intro s
            simp [dictGet]
          · exact h
        by_cases hf : fails ws = true
        · rw [if_pos hf] at hok
          injection hok with hok
          rw [← hok]
          exact disconnect_teacher_aligned fails _ ws
            (rooms_aligned_of_proj _ _ rfl rfl haligned)
        · rw [if_neg hf] at hok
          injection hok with hok
          rw [← hok]
          exact rooms_aligned_of_proj _ _ rfl rfl haligned

/-- The state produced by a successful `connect_student` with no send
failures. -/
theorem connect_student_no_failures_state (fuel : Nat) (mgr : Manager) (ws : WS)
    (room_id student_id student_name : String) (now : Nat)
    (sm : List (String × WS)) (im : List (String × StudentInfo)) (teachers : List WS)
    (hsw : dictGet mgr.rooms_students room_id = some sm)
    (him : dictGet mgr.rooms_students_info room_id = some im)
    (ht : dictGet mgr.rooms_teachers room_id = some teachers)
    (hne : teachers ≠ []) :
    ∃ evs, connect_student no_failures fuel mgr ws room_id student_id student_name now =
      .ok ({ mgr with
          rooms_students := (dictSet mgr.rooms_students room_id (dictSet sm student_id ws)),
          rooms_students_info := (dictSet mgr.rooms_students_info room_id (dictSet im student_id ⟨student_id, student_name, "attentive", now, 0⟩)),
          user_websockets := dictSet mgr.user_websockets student_id ws,
          websocket_users := dictSet mgr.websocket_users ws student_id },
        true, evs) := by
  unfold connect_student
  have hc1 : ¬ dictContains mgr.rooms_students room_id = false := by
    rw [dictContains, hsw]
    simp
  rw [if_neg hc1]
  have hc2 : ¬ ((dictGet mgr.rooms_teachers room_id).getD []).length = 0 := by
    rw [ht]
    simpa using hne
  rw [if_neg hc2]
  rw [him]
  dsimp only
  rw [hsw]
  try dsimp only
  rw [broadcast_to_room_students_state no_failures (fun _ => rfl) fuel]
  rw [dictGet_set_self]
  try dsimp only
  rw [broadcast_to_room_teachers_state no_failures (fun _ => rfl)]
  exact ⟨_, rfl⟩

/-- After the lock-guarded deletion of a student present in both maps, both
maps are the originals with that student erased from the room. -/
theorem disconnect_student_lock_present_maps (mgr : Manager)
    (room_id student_id : String)
    (sm : List (String × WS)) (im : List (String × StudentInfo))
    (w : WS) (info : StudentInfo)
    (hsw : dictGet mgr.rooms_students room_id = some sm)
    (him : dictGet mgr.rooms_students_info room_id = some im)
    (hw : dictGet sm student_id = some w)
    (hi : dictGet im student_id = some info) :
    (disconnect_student_lock mgr room_id student_id).1.rooms_students =
      dictSet mgr.rooms_students room_id (dictErase sm student_id)
    ∧ (disconnect_student_lock mgr room_id student_id).1.rooms_students_info =
      dictSet mgr.rooms_students_info room_id (dictErase im student_id) := by
  unfold disconnect_student_lock
  dsimp only
  rw [lock_info_present mgr room_id student_id im info him hi]
  dsimp only
  rw [lock_students_present
    { mgr with rooms_students_info := (dictSet mgr.rooms_students_info
        room_id (dictErase im student_id)) }
    room_id student_id sm w hsw hw]
  constructor
  · rw [(webrtc_student_cleanup_rooms _ w student_id).1]
  · rw [(webrtc_student_cleanup_rooms _ w student_id).2]

/-- Claim C5: for every room, all the public operations preserve the
invariant that `rooms_students` and `rooms_students_info` have identical key
sets (room keys, and per room student keys); and with no send failures a
student join followed by that student's leave restores both maps exactly to
their pre-join contents. -/
theorem students_info_key_sets_match (fails : WS → Bool) (mgr : Manager)
    (h : rooms_aligned mgr) :
    (∀ ws name rnd code mgr2 evs,
      connect_teacher fails mgr ws name rnd = .ok (code, mgr2, evs) →
      rooms_aligned mgr2)
    ∧ (∀ ws room_id name rnd now res,
        teacher_websocket_connect fails mgr ws room_id name rnd now = .ok res →
        rooms_aligned res.1)
    ∧ (∀ fuel ws room_id student_id student_name now res,
        connect_student fails fuel mgr ws room_id student_id student_name now = .ok res →
        rooms_aligned res.1)
    ∧ (∀ fuel room_id student_id,
        rooms_aligned (disconnect_student fails fuel mgr room_id student_id).1)
    ∧ (∀ ws, rooms_aligned (disconnect_teacher fails mgr ws).1)
    ∧ (∀ room_id student_id d now res,
        update_student_attention fails mgr room_id student_id d now = .ok res →
        rooms_aligned res.1)
    ∧ (∀ fuel fuel2 ws room_id student_id student_name now sm im teachers,
        dictGet mgr.rooms_students room_id = some sm →
        dictGet mgr.rooms_students_info room_id = some im →
        dictGet mgr.rooms_teachers room_id = some teachers → teachers ≠ [] →
        dictGet sm student_id = none →
        ∀ res, connect_student no_failures fuel mgr ws room_id student_id student_name now = .ok res →
          (disconnect_student no_failures fuel2 res.1 room_id student_id).1.rooms_students =
            mgr.rooms_students
          ∧ (disconnect_student no_failures fuel2 res.1 room_id student_id).1.rooms_students_info =
            mgr.rooms_students_info) := by
  refine ⟨?_, ?_, ?_, ?_, ?_, ?_, ?_⟩
  · intro ws name rnd code mgr2 evs hok
    exact connect_teacher_aligned fails mgr ws name rnd code mgr2 evs h hok
  · intro ws room_id name rnd now res hok
    exact teacher_websocket_connect_aligned fails mgr ws room_id name rnd now res h hok
  · intro fuel ws room_id student_id student_name now res hok
    exact connect_student_aligned fails fuel mgr ws room_id student_id student_name now res h hok
  · intro fuel room_id student_id
    exact disconnect_student_aligned fails fuel mgr room_id student_id h
  · intro ws
    exact disconnect_teacher_aligned fails mgr ws h
  · intro room_id student_id d now res hok
    exact update_student_attention_aligned fails mgr room_id student_id d now res h hok
  · intro fuel fuel2 ws room_id student_id student_name now sm im teachers
      hsw him ht hne habs res hok
    obtain ⟨evs, hconn⟩ := connect_student_no_failures_state fuel mgr ws room_id
      student_id student_name now sm im teachers hsw him ht hne
    rw [hconn] at hok
    injection hok with hok
    rw [← hok]
    dsimp only
    have habsim : dictGet im student_id = none := by
      have hiff := h.2 room_id sm im hsw him student_id
      rw [habs] at hiff
      cases hq : dictGet im student_id with
      | none => rfl
      | some v =>
        rw [hq] at hiff
        simp at hiff
    rw [disconnect_student_state no_failures (fun _ => rfl) fuel2]
    have hmaps := disconnect_student_lock_present_maps
      { mgr with
        rooms_students := (dictSet mgr.rooms_students room_id (dictSet sm student_id ws)),
        rooms_students_info := (dictSet mgr.rooms_students_info room_id (dictSet im student_id ⟨student_id, student_name, "attentive", now, 0⟩)),
        user_websockets := dictSet mgr.user_websockets student_id ws,
        websocket_users := dictSet mgr.websocket_users ws student_id }
      room_id student_id
      (dictSet sm student_id ws)
      (dictSet im student_id ⟨student_id, student_name, "attentive", now, 0⟩)
      ws ⟨student_id, student_name, "attentive", now, 0⟩
      (dictGet_set_self _ _ _) (dictGet_set_self _ _ _)
      (dictGet_set_self _ _ _) (dictGet_set_self _ _ _)
    rw [hmaps.1, hmaps.2]
    dsimp only
    constructor
    · rw [dictSet_set, dictErase_set_of_absent sm student_id ws habs,
        dictSet_eq_self mgr.rooms_students room_id sm hsw]
    · rw [dictSet_set, dictErase_set_of_absent im student_id _ habsim,
        dictSet_eq_self mgr.rooms_students_info room_id im him]

/-- `mgrOne` (one empty room with one teacher) satisfies the invariant. -/
theorem rooms_aligned_mgrOne : rooms_aligned mgrOne := by
  constructor
  · intro r
    by_cases hr : r = "AAAAAA" <;> simp [mgrOne, dictGet, hr]
  · intro r sm im hsm him s
    by_cases hr : r = "AAAAAA"
    · subst hr
      simp [mgrOne, dictGet] at hsm him
      subst hsm
      subst him
      simp [dictGet]
    · simp only [mgrOne, dictGet, if_neg hr] at hsm
      exact absurd hsm (fun hh => Option.noConfusion hh)

/-- `mgrOne` right after student `"S"` (socket 7, name Alice) joined. -/
def mgrJoin : Manager :=
  ⟨[("AAAAAA", [("S", 7)])], [("AAAAAA", [1])],
   [("AAAAAA", [("S", ⟨"S", "Alice", "attentive", 3, 0⟩)])],
   [(1, "AAAAAA")], [(1, "T1")], [("S", 7)], [(7, "S")],
   [("AAAAAA", .meta 0 1)], ["AAAAAA"]⟩

/-- Witness for C5: the join/leave round trip on the concrete one-teacher
room restores both maps exactly. -/
theorem students_info_key_sets_match_witness :
    (disconnect_student no_failures 1 mgrJoin "AAAAAA" "S").1.rooms_students =
      mgrOne.rooms_students
    ∧ (disconnect_student no_failures 1 mgrJoin "AAAAAA" "S").1.rooms_students_info =
      mgrOne.rooms_students_info :=
  (students_info_key_sets_match no_failures mgrOne rooms_aligned_mgrOne).2.2.2.2.2.2
    1 1 7 "AAAAAA" "S" "Alice" 3 [] [] [1] rfl rfl rfl (by decide) rfl
    (mgrJoin, true,
      [Ev.sent 1 (.student_join_t "S" "Alice" [⟨"S", "Alice", "attentive", 3, 0⟩])])
    (by rfl)

end LiveBackend
